import Mathlib

/-!
# CrownDana frontend: the spin wheel and the form handlers

Shallow embedding of `src/pages/bonus-hub/spin-wheel.js`
(`calculateRotation`, lines 100-114, and `handleSpin`, lines 116-201),
followed by the handlers of the withdrawal form, the investment modal, the
testimonial upload, the portfolio tabs, the investment history and the admin
settings. The definitions of all pages come first, the lemmas and theorems
after them, page by page.

Modelling conventions
* JavaScript numbers are exact rationals (`ℚ`): the arithmetic of the source
  is reproduced without floating-point rounding; `NaN` is `none` where a
  value can be `NaN`. The prize processing takes the rounding of the
  arithmetic as a parameter (`id` for exact arithmetic, `roundDouble` for
  double precision).
* `Math.random()` is an explicit argument `rand`, a rational in `[0, 1)`.
* `Math.floor` is `Int.floor`; the JavaScript `%` operator is `jsMod`
  (truncated remainder, result carries the sign of the dividend).
* React state is an explicit record `State`; one run of an asynchronous
  handler is a function from the state before to the state after, the reply
  of the awaited request being an argument, or two functions split at the
  `await` where other events can occur in between.
-/

namespace SpinWheel

/-! ## Numeric primitives -/

/-- Truncation toward zero, the integer quotient used by JavaScript `%`:
the floor of a non-negative number, minus the floor of the opposite otherwise. -/
def truncQ (x : ℚ) : ℤ := if 0 ≤ x then ⌊x⌋ else -⌊-x⌋

/-- JavaScript `a % b` on (finite, non-NaN) numbers with `b ≠ 0`:
`a - b * trunc (a / b)`. -/
def jsMod (a b : ℚ) : ℚ := a - b * (truncQ (a / b) : ℚ)

/-- Mathematical reduction modulo 360 into `[0, 360)`; used only to state
alignment properties, it does not occur in the source. -/
def mod360 (x : ℚ) : ℚ := x - 360 * (⌊x / 360⌋ : ℚ)

/-! ## `calculateRotation` (lines 100-114) -/

/-- Line 102: `const segmentAngle = 360 / prizes.length`. The line is reached
only with `prizes.length > 0` (guard of line 101); the value at `len = 0` is
never used. -/
def segmentAngle (len : ℕ) : ℚ := 360 / (len : ℚ)

/-- Line 105: `const targetCenter = (prizeIndex + 0.5) * segmentAngle`. -/
def targetCenter (len : ℕ) (prizeIndex : ℤ) : ℚ :=
  ((prizeIndex : ℚ) + 1 / 2) * segmentAngle len

/-- Line 108: `const desiredFinal = (270 - targetCenter + 360) % 360`. -/
def desiredFinal (len : ℕ) (prizeIndex : ℤ) : ℚ :=
  jsMod (270 - targetCenter len prizeIndex + 360) 360

/-- The jitter term `Math.floor(Math.random() * 2)` of line 111. -/
def extraSpins (rand : ℚ) : ℤ := ⌊rand * 2⌋

/-- Line 111: `const fullSpins = (5 + Math.floor(Math.random() * 2)) * 360`. -/
def fullSpins (rand : ℚ) : ℚ := ((5 + extraSpins rand : ℤ) : ℚ) * 360

/-- The function `calculateRotation(prizeIndex)`; `len` is `prizes.length` of
the enclosing component and `rand` the value drawn by `Math.random()`.
Line 101 returns `0` for an empty list; there is no `throw` in the body. -/
def calculateRotation (len : ℕ) (rand : ℚ) (prizeIndex : ℤ) : ℚ :=
  if len = 0 then 0
  else fullSpins rand + desiredFinal len prizeIndex

/-- How a JavaScript call completes: it returns a value or throws. -/
inductive Completion (α : Type) where
  | returned (value : α)
  | thrown (message : String)
  deriving DecidableEq, Repr

/-- Completion of a call `calculateRotation(prizeIndex)`. The body (lines
101-113) consists of an early `return 0`, arithmetic on numbers and a final
`return`; it has no `throw` and no operation that can throw, so every call
completes by returning. -/
def calculateRotationCall (len : ℕ) (rand : ℚ) (prizeIndex : ℤ) : Completion ℚ :=
  .returned (calculateRotation len rand prizeIndex)

/-! ## The rotation arithmetic of `handleSpin` (lines 157-160) -/

/-- Line 158: `const baseFull = Math.floor(currentRotation / 360) * 360`. -/
def baseFull (currentRotation : ℚ) : ℚ := (⌊currentRotation / 360⌋ : ℚ) * 360

/-- Line 159: the first value of `targetRotation`, `baseFull + finalRotation`. -/
def naiveTarget (len : ℕ) (rand : ℚ) (serverIndex : ℤ) (currentRotation : ℚ) : ℚ :=
  baseFull currentRotation + calculateRotation len rand serverIndex

/-- Lines 157-160: the final value of the local `targetRotation`,
with the correction `if (targetRotation <= currentRotation) targetRotation += 360`. -/
def targetRotation (len : ℕ) (rand : ℚ) (serverIndex : ℤ) (currentRotation : ℚ) : ℚ :=
  if naiveTarget len rand serverIndex currentRotation ≤ currentRotation then
    naiveTarget len rand serverIndex currentRotation + 360
  else naiveTarget len rand serverIndex currentRotation

/-! ## Component state, request reply and `handleSpin` (lines 116-201) -/

/-- JavaScript truthiness of an optional string: `undefined`, `null` and the
empty string are falsy. -/
def truthy : Option String → Bool
  | some t => t != ""
  | none => false

/-- The expression `text || fallback` for an optional string `text`. -/
def orDefault (text : Option String) (fallback : String) : String :=
  match text with
  | some t => if t = "" then fallback else t
  | none => fallback

/-- The fields of an entry of `prizes` that `handleSpin` reads. `amount` holds
`Number(p.amount)`, with `none` for `NaN`. -/
structure Prize where
  code : Option String
  amount : Option ℚ
  deriving DecidableEq

/-- The object `response.data.spin_result`; `amount` holds
`Number(serverPrize.amount)`, with `none` for `NaN`. -/
structure SpinResult where
  code : Option String
  amount : Option ℚ
  deriving DecidableEq

/-- The object `response.data.balance_info`. -/
structure BalanceInfo where
  previous_balance : ℚ
  current_balance : ℚ
  prize_amount : ℚ
  deriving DecidableEq

/-- The object `response.data`; a missing member is `none`. -/
structure SpinData where
  spin_result : Option SpinResult
  balance_info : Option BalanceInfo
  deriving DecidableEq

/-- The value the request `spinV2()` resolves to, when it is an object;
`success` is the truthiness of `response.success`. -/
structure Response where
  success : Bool
  message : Option String
  data : Option SpinData
  deriving DecidableEq

/-- Outcome of `await spinV2()` (line 134): the promise rejects with an error
carrying `err.message`, or it resolves to a response, `none` standing for a
falsy (null or undefined) response. -/
inductive Reply where
  | rejected (message : Option String)
  | fulfilled (response : Option Response)
  deriving DecidableEq

/-- The state `userData` (lines 16-24). -/
structure UserData where
  balance : ℚ
  name : String
  number : String
  reff_code : String
  spin_ticket : ℤ
  total_invest : ℚ
  total_withdraw : ℚ
  deriving DecidableEq

/-- The state `result` set at lines 170-179. The display string `prize.name`
is represented by the test `amount >= 1000` that selects its format. -/
structure SpinOutcome where
  prizeAmount : Option ℚ
  prizeNameIsRupiah : Bool
  message : Option String
  previousBalance : ℚ
  currentBalance : ℚ
  balancePrizeAmount : ℚ
  deriving DecidableEq

/-- The inline style that `handleSpin` writes on `wheelRef.current`: the
`transition` string and the angle of `rotate(...deg)`. -/
structure WheelStyle where
  transition : String
  rotate : ℚ
  deriving DecidableEq

/-- The React state of the component that `handleSpin` reads or writes,
together with the style of the wheel element (`none` when `wheelRef.current`
is null). -/
structure State where
  prizes : List Prize
  userData : UserData
  currentRotation : ℚ
  isSpinning : Bool
  error : Option String
  result : Option SpinOutcome
  pointerActive : Bool
  wheel : Option WheelStyle
  deriving DecidableEq

/-- The state after the `useState` initialisers (lines 11-27), wheel not yet
mounted. -/
def initialState : State where
  prizes := []
  userData :=
    { balance := 0, name := "", number := "", reff_code := "", spin_ticket := 0,
      total_invest := 0, total_withdraw := 0 }
  currentRotation := 0
  isSpinning := false
  error := none
  result := none
  pointerActive := false
  wheel := none

/-- `Array.prototype.findIndex`: the position of the first element satisfying
`pred`, or `-1`. -/
def findIndex {α : Type} (pred : α → Bool) (xs : List α) : ℤ :=
  if xs.findIdx pred < xs.length then (xs.findIdx pred : ℤ) else -1

/-- The callback of line 152:
`(p.code && serverPrize.code && p.code === serverPrize.code) ||
 (Number(p.amount) === Number(serverPrize.amount))`. -/
def matchesPrize (serverPrize : SpinResult) (p : Prize) : Bool :=
  (truthy p.code && truthy serverPrize.code && p.code == serverPrize.code) ||
    (match p.amount, serverPrize.amount with
      | some a, some b => a == b
      | _, _ => false)

/-- Line 149: `response.data && response.data.spin_result ?
response.data.spin_result : null`. -/
def serverPrizeOf (response : Response) : Option SpinResult :=
  response.data.bind fun d => d.spin_result

/-- Lines 150-154: the value of `serverIndex` passed to `calculateRotation`,
with the fallback `if (serverIndex === -1) serverIndex = 0`. -/
def serverIndex (prizes : List Prize) (serverPrize : Option SpinResult) : ℤ :=
  let found : ℤ :=
    match serverPrize with
    | some sp => findIndex (matchesPrize sp) prizes
    | none => -1
  if found = -1 then 0 else found

/-- Message of the `TypeError` raised by reading a property of a null or
undefined value; its wording is engine-specific and only required non-empty. -/
def typeErrorMessage : String := "Cannot read properties of undefined"

/-- The `catch` block followed by `finally` (lines 191-200), entered from the
state `cur` of the handler with the closure value `closureRotation` of
`currentRotation`. -/
def catchBlock (cur : State) (closureRotation : ℚ) (message : Option String) : State :=
  { cur with
    error := some (orDefault message "Network error. Please try again.")
    wheel := cur.wheel.map fun _ => { transition := "none", rotate := closureRotation }
    isSpinning := false }

/-- The unsuccessful-response branch (lines 136-146). -/
def failureBranch (cur : State) (previousRotation : ℚ) (response : Option Response) :
    State :=
  { cur with
    error := some (orDefault (response.bind fun r => r.message) "Spin gagal")
    wheel := cur.wheel.map fun _ =>
      { transition := "transform 600ms ease-out", rotate := previousRotation }
    currentRotation := previousRotation
    isSpinning := false }

/-- The successful-response branch (lines 148-189) followed by `finally`.
The rotation is committed at line 166; building the result at lines 170-179
reads `response.data.spin_result.amount` and `response.data.balance_info.*`,
which throws a `TypeError` into the `catch` block when a member is missing. -/
def successBranch (cur : State) (closure : State) (response : Response) (rand : ℚ) :
    State :=
  let target :=
    targetRotation closure.prizes.length rand
      (serverIndex closure.prizes (serverPrizeOf response)) closure.currentRotation
  let animated : State :=
    { cur with
      wheel := cur.wheel.map fun _ =>
        { transition := "transform 4s cubic-bezier(0.2,0.7,0.3,1)", rotate := target }
      currentRotation := target
      pointerActive := true }
  match response.data with
  | none => catchBlock animated closure.currentRotation (some typeErrorMessage)
  | some d =>
    match d.spin_result, d.balance_info with
    | some sr, some bi =>
      { animated with
        result := some
          { prizeAmount := sr.amount
            prizeNameIsRupiah :=
              (match sr.amount with
                | some a => decide (1000 ≤ a)
                | none => false)
            message := response.message
            previousBalance := bi.previous_balance
            currentBalance := bi.current_balance
            balancePrizeAmount := bi.prize_amount }
        userData :=
          { closure.userData with
            balance := bi.current_balance
            spin_ticket := closure.userData.spin_ticket - 1 }
        isSpinning := false }
    | _, _ => catchBlock animated closure.currentRotation (some typeErrorMessage)

/-- One complete run of the handler `handleSpin` from state `s`: `reply` is the
outcome of the awaited request and `rand` the value `Math.random()` returns if
`calculateRotation` is reached. The timers (the 4200 ms wait, the 1800 ms
reset of `pointerActive`) and the write to `localStorage` are not modelled. -/
def handleSpin (s : State) (reply : Reply) (rand : ℚ) : State :=
  if s.userData.spin_ticket < 1 then
    { s with error := some "Tidak memiliki tiket spin yang cukup" }
  else if s.prizes.length = 0 then
    { s with error := some "Data hadiah belum dimuat" }
  else
    let started : State := { s with isSpinning := true, error := none, result := none }
    match reply with
    | .rejected message => catchBlock started s.currentRotation message
    | .fulfilled none => failureBranch started s.currentRotation none
    | .fulfilled (some response) =>
      if response.success then successBranch started s response rand
      else failureBranch started s.currentRotation (some response)

/-- Whether `handleSpin` issues the request `spinV2()` from state `s`
(both guards of lines 117-125 passed). -/
def requestIssued (s : State) : Bool :=
  !decide (s.userData.spin_ticket < 1) && !decide (s.prizes.length = 0)

/-- The request failed: the promise rejected, or resolved to no response or
to a response whose `success` is not truthy. -/
def Reply.failed : Reply → Bool
  | .rejected _ => true
  | .fulfilled none => true
  | .fulfilled (some response) => !response.success

/-! ## Sequences of events -/

/-- What changes the modelled state: a click on the spin button that runs
`handleSpin` to completion, or the mount effect delivering the user record
(line 53) or the processed prize list (line 69). -/
inductive Event where
  | spin (reply : Reply) (rand : ℚ)
  | userLoaded (user : UserData)
  | prizesLoaded (prizes : List Prize)
  deriving DecidableEq

/-- The draw of a spin event is a value `Math.random()` can return. -/
def Event.validDraw : Event → Prop
  | .spin _ rand => 0 ≤ rand ∧ rand < 1
  | _ => True

/-- A spin is accepted when the request is issued and answered by a response
with truthy `success`. -/
def accepted (s : State) : Event → Bool
  | .spin reply _ => requestIssued s && !reply.failed
  | _ => false

/-- State after one event. -/
def step (s : State) : Event → State
  | .spin reply rand => handleSpin s reply rand
  | .userLoaded user => { s with userData := user }
  | .prizesLoaded prizes => { s with prizes := prizes }

/-- State after a sequence of events. -/
def run (s : State) (events : List Event) : State := events.foldl step s

/-! ## Concrete data for the examples -/

/-- A catalogue of six prizes. -/
def sixPrizes : List Prize :=
  [ { code := some "P1", amount := some 100 }, { code := some "P2", amount := some 500 },
    { code := some "P3", amount := some 1000 }, { code := some "P4", amount := some 5000 },
    { code := some "P5", amount := some 10000 }, { code := some "P6", amount := some 50000 } ]

/-- A spin result whose key and amount occur in no entry of `sixPrizes`. -/
def unknownResult : SpinResult := { code := some "ZZ", amount := some 777 }

/-- A user record holding three spin tickets. -/
def threeTickets : UserData :=
  { balance := 2500, name := "Dana", number := "0812", reff_code := "CD01", spin_ticket := 3,
    total_invest := 0, total_withdraw := 0 }

/-- The initial state after the six prizes and the user record were loaded
and the wheel was mounted. -/
def readyState : State :=
  { initialState with
    prizes := sixPrizes
    userData := threeTickets
    wheel := some { transition := "none", rotate := 0 } }

/-- A successful response naming the prize `P4`. -/
def wonP4 : Response :=
  { success := true
    message := some "Selamat"
    data := some
      { spin_result := some { code := some "P4", amount := some 5000 }
        balance_info :=
          some { previous_balance := 2500, current_balance := 7500, prize_amount := 5000 } } }

/-- A successful response naming the unknown prize. -/
def wonUnknown : Response :=
  { success := true
    message := some "Selamat"
    data := some
      { spin_result := some unknownResult
        balance_info :=
          some { previous_balance := 2500, current_balance := 3277, prize_amount := 777 } } }

/-- A response refused by the server. -/
def refused : Response := { success := false, message := some "Tiket tidak valid", data := none }

/-- The events of a short session before the step under observation. -/
def sessionBefore : List Event :=
  [.userLoaded threeTickets, .prizesLoaded sixPrizes, .spin (.fulfilled (some wonP4)) (1 / 4)]

/-- The events of the session after the step under observation. -/
def sessionAfter : List Event :=
  [.spin (.rejected (some "timeout")) (1 / 2), .spin (.fulfilled (some wonUnknown)) (3 / 4)]

/-! ## Prize processing (`fetchSpinData`, lines 57-69) -/

/-- Round a positive number of the binade `[2^e, 2^(e+1))` to 53 significant
bits, to nearest with ties to even. -/
def roundInBinade (e : ℤ) (a : ℚ) : ℚ :=
  let quantum : ℚ := (2 : ℚ) ^ (e - 52)
  let low : ℤ := ⌊a / quantum⌋
  let rest : ℚ := a / quantum - (low : ℚ)
  let mantissa : ℤ :=
    if rest < 1 / 2 then low
    else if 1 / 2 < rest then low + 1
    else if low % 2 = 0 then low
    else low + 1
  (mantissa : ℚ) * quantum

/-- The double-precision number nearest to `x` (IEEE 754 round to nearest,
ties to even), for `x` in the range of normal numbers. -/
def roundDouble (x : ℚ) : ℚ :=
  if x = 0 then 0
  else if 0 < x then roundInBinade (Int.log 2 x) x
  else -roundInBinade (Int.log 2 (-x)) (-x)

/-- The value of `prize.chance`: a number (`typeof prize.chance === 'number'`)
or another value, for which `asNumber` is what the division of line 67
converts it to (`none` for `NaN`). -/
inductive Chance where
  | number (v : ℚ)
  | other (asNumber : Option ℚ)
  deriving DecidableEq

/-- An element of `res.data`: the fields read by lines 59-67 and by
`handleSpin`. -/
structure FetchedPrize where
  code : Option String
  amount : Option ℚ
  status : String
  chance : Chance
  deriving DecidableEq

/-- An element of `processedPrizes` (lines 62-68): the fetched prize
(`...prize`) and the added members; `color` is `none` when the colour array
has no entry at the index, and the string `name` is represented by the test
`amount >= 1000` that selects its format. -/
structure ProcessedPrize where
  fetched : FetchedPrize
  color : Option String
  textColor : String
  nameIsRupiah : Bool
  chancePercent : Option ℚ
  deriving DecidableEq

/-- The colours of lines 31-34 before they are shuffled. -/
def brandColors : List String :=
  ["#9900cc", "#0058BC", "#FF6B35", "#3D85C6", "#d74e0f", "#00418a", "#E65C00", "#6B9ED7"]

/-- Line 59: `res.data.filter((prize) => prize.status === 'Active')`. -/
def activePrizes (data : List FetchedPrize) : List FetchedPrize :=
  data.filter fun prize => decide (prize.status = "Active")

/-- The summand of line 61: `typeof prize.chance === 'number' ? prize.chance : 0`. -/
def numericChance (prize : FetchedPrize) : ℚ :=
  match prize.chance with
  | .number v => v
  | .other _ => 0

/-- The operand `prize.chance` of the division of line 67, `none` for `NaN`. -/
def chanceOperand (prize : FetchedPrize) : Option ℚ :=
  match prize.chance with
  | .number v => some v
  | .other asNumber => asNumber

/-- Line 61: `totalChance`, every addition being followed by the rounding
`rnd` of the arithmetic. -/
def totalChanceWith (rnd : ℚ → ℚ) (filtered : List FetchedPrize) : ℚ :=
  filtered.foldl (fun sum prize => rnd (sum + numericChance prize)) 0

/-- Line 67: `totalChance > 0 ? ((prize.chance / totalChance) * 100) : 0`,
the division and the multiplication being followed by the rounding `rnd`. -/
def chancePercentWith (rnd : ℚ → ℚ) (totalChance : ℚ) (prize : FetchedPrize) : Option ℚ :=
  if 0 < totalChance then
    (chanceOperand prize).map fun c => rnd (rnd (c / totalChance) * 100)
  else some 0

/-- Lines 59-68: the list `processedPrizes` built from `res.data`, for the
colour array `prizeColors` and the rounding `rnd` of the arithmetic. -/
def processPrizesWith (rnd : ℚ → ℚ) (prizeColors : List String) (data : List FetchedPrize) :
    List ProcessedPrize :=
  (activePrizes data).enum.map fun entry =>
    { fetched := entry.2
      color := prizeColors[entry.1 % prizeColors.length]?
      textColor := "#FFFFFF"
      nameIsRupiah :=
        (match entry.2.amount with
          | some a => decide (1000 ≤ a)
          | none => false)
      chancePercent := chancePercentWith rnd (totalChanceWith rnd (activePrizes data)) entry.2 }

/-- The processing in the double-precision arithmetic of JavaScript. -/
def processPrizesDouble (prizeColors : List String) (data : List FetchedPrize) :
    List ProcessedPrize :=
  processPrizesWith roundDouble prizeColors data

/-- The entry of `prizes` that `handleSpin` reads. -/
def ProcessedPrize.toPrize (p : ProcessedPrize) : Prize :=
  { code := p.fetched.code, amount := p.fetched.amount }

/-- Two active prizes with chances 1 and 2 and an inactive one. -/
def oneTwoPrizes : List FetchedPrize :=
  [ { code := some "A", amount := some 500, status := "Active", chance := .number 1 },
    { code := some "X", amount := some 9000, status := "Inactive", chance := .number 5 },
    { code := some "B", amount := some 2000, status := "Active", chance := .number 2 } ]

/-- Two active prizes with chance 0. -/
def zeroChancePrizes : List FetchedPrize :=
  [ { code := some "A", amount := some 500, status := "Active", chance := .number 0 },
    { code := some "B", amount := some 2000, status := "Active", chance := .other none } ]

end SpinWheel

/-!
# Form values shared by the pages

Values typed into `<input type="number">` fields, with the two conversions
the pages apply to them, `Number(...)` and `parseInt(...)`.
-/

namespace Js

/-- A valid floating-point number string, the only non-empty value an
`<input type="number">` delivers: an optional `-`, digits before the point,
an optional fraction and an optional exponent. `"1e5"` is
`{ negative := false, intPart := some 1, fracNum := 0, fracLen := 0, exponent := 5 }`
and `"-.25"` is
`{ negative := true, intPart := none, fracNum := 25, fracLen := 2, exponent := 0 }`. -/
structure FloatText where
  /-- A leading `-` is present. -/
  negative : Bool
  /-- The digits before the point read in base 10; `none` when there are none. -/
  intPart : Option ℕ
  /-- The digits after the point read in base 10 (0 when there is no fraction). -/
  fracNum : ℕ
  /-- The number of digits after the point. -/
  fracLen : ℕ
  /-- The exponent after `e` (0 when there is none). -/
  exponent : ℤ
  deriving DecidableEq

/-- Absolute value denoted by the text. -/
def FloatText.magnitude (t : FloatText) : ℚ :=
  (((t.intPart.getD 0 : ℕ) : ℚ) + (t.fracNum : ℚ) / (10 : ℚ) ^ t.fracLen) * (10 : ℚ) ^ t.exponent

/-- `Number(text)`: the number denoted by the whole text. -/
def FloatText.toNumber (t : FloatText) : ℚ :=
  if t.negative then -t.magnitude else t.magnitude

/-- `parseInt(text)`: the sign and the digits before the point; parsing stops
at the first character that is not a digit, so the fraction and the exponent
are ignored, and the result is `NaN` (`none`) when no digit precedes the
point. -/
def FloatText.parseInt (t : FloatText) : Option ℤ :=
  match t.intPart with
  | none => none
  | some n => some (if t.negative then -(n : ℤ) else (n : ℤ))

/-- A string held by a form field: the empty string, a floating-point number
string, or a string that `Number` maps to `NaN`, for which `leadingInt`
records what `parseInt` returns. -/
inductive FieldText where
  | empty
  | float (t : FloatText)
  | nonNumeric (leadingInt : Option ℤ)
  deriving DecidableEq

/-- `Number(s)`, with `none` for `NaN`; `Number('')` is 0. -/
def FieldText.toNumber : FieldText → Option ℚ
  | .empty => some 0
  | .float t => some t.toNumber
  | .nonNumeric _ => none

/-- `parseInt(s)`, with `none` for `NaN`. -/
def FieldText.parseInt : FieldText → Option ℤ
  | .empty => none
  | .float t => t.parseInt
  | .nonNumeric k => k

/-- Truthiness of a string: only the empty string is falsy. -/
def FieldText.truthy : FieldText → Bool
  | .empty => false
  | _ => true

end Js

/-!
# Withdrawal form (`src/pages/withdraw.js`, `handleWithdraw`, lines 94-125)

`minWithdraw`, `maxWithdraw` and the balance are numbers; bank account
identifiers are natural numbers, 0 being falsy like in JavaScript.
-/

namespace Withdraw

/-- Contents of `errorMsg` or `successMsg`. -/
inductive Msg where
  /-- A literal or server-provided string. -/
  | text (s : String)
  /-- The template of line 105, `Jumlah penarikan minimal IDR <min> dan
  maksimal IDR <max>`, with the two limits it formats. -/
  | rangeTemplate (min max : ℚ)
  /-- The value `undefined` (a response without `message`). -/
  | undefined
  deriving DecidableEq

/-- The state `userData` (lines 39-43). -/
structure UserData where
  name : String
  number : String
  balance : ℚ
  deriving DecidableEq

/-- The component state read or written by `handleWithdraw`. -/
structure State where
  withdrawAmount : Js.FieldText
  selectedBankId : Option ℕ
  userData : Option UserData
  minWithdraw : ℚ
  maxWithdraw : ℚ
  errorMsg : Msg
  successMsg : Msg
  loading : Bool
  deriving DecidableEq

/-- The argument of `withdrawUser` (line 114). -/
structure Request where
  amount : ℚ
  bank_account_id : ℕ
  deriving DecidableEq

/-- The object `data` the request resolves to. -/
structure Data where
  success : Bool
  message : Option String
  deriving DecidableEq

/-- Outcome of `await withdrawUser(...)`: rejection with `err.message`, or a
value, `none` standing for null or undefined. -/
inductive Reply where
  | rejected (message : Option String)
  | fulfilled (data : Option Data)
  deriving DecidableEq

/-- A server message as stored by `setErrorMsg(data.message)`. -/
def Msg.ofOption : Option String → Msg
  | some m => .text m
  | none => .undefined

/-- The expression `err.message || fallback`. -/
def orFallback (message : Option String) (fallback : String) : String :=
  match message with
  | some m => if m = "" then fallback else m
  | none => fallback

/-- Truthiness of `selectedBankId`: `null` and `0` are falsy. -/
def bankTruthy : Option ℕ → Bool
  | some id => id != 0
  | none => false

/-- Lines 113-124: the state after the request was answered. -/
def afterReply (cur : State) (reply : Reply) : State :=
  match reply with
  | .fulfilled (some data) =>
    if data.success then
      { cur with successMsg := Msg.ofOption data.message, withdrawAmount := .empty,
                 loading := false }
    else { cur with errorMsg := Msg.ofOption data.message, loading := false }
  | .fulfilled none =>
    { cur with errorMsg := .text "Cannot read properties of undefined", loading := false }
  | .rejected message =>
    { cur with
      errorMsg := .text (orFallback message "Terjadi kesalahan saat memproses penarikan")
      loading := false }

/-- One run of `handleWithdraw` from state `s`: the state after it and the
argument of the call `withdrawUser(...)`, `none` when no call is made; `reply`
is the outcome of the awaited call. -/
def handleWithdraw (s : State) (reply : Reply) : State × Option Request :=
  let cleared : State := { s with errorMsg := .text "", successMsg := .text "" }
  match s.selectedBankId with
  | none =>
    ({ cleared with errorMsg := .text "Silakan pilih rekening bank terlebih dahulu" }, none)
  | some id =>
    if id = 0 then
      ({ cleared with errorMsg := .text "Silakan pilih rekening bank terlebih dahulu" }, none)
    else
      match s.withdrawAmount.toNumber with
      | none => ({ cleared with errorMsg := .rangeTemplate s.minWithdraw s.maxWithdraw }, none)
      | some amountNum =>
        if amountNum < s.minWithdraw ∨ amountNum > s.maxWithdraw then
          ({ cleared with errorMsg := .rangeTemplate s.minWithdraw s.maxWithdraw }, none)
        else if (match s.userData with
            | some u => decide (amountNum > u.balance)
            | none => false) then
          ({ cleared with errorMsg := .text "Saldo tidak mencukupi untuk penarikan ini" }, none)
        else
          (afterReply { cleared with loading := true } reply,
            some { amount := amountNum, bank_account_id := id })

/-- A form ready to submit: account 7 selected, limits 50000 and 5000000,
balance 300000 and the text `"120000"` entered. -/
def filledForm : State :=
  { withdrawAmount := .float
      { negative := false, intPart := some 120000, fracNum := 0, fracLen := 0, exponent := 0 }
    selectedBankId := some 7
    userData := some { name := "Dana", number := "0812", balance := 300000 }
    minWithdraw := 50000
    maxWithdraw := 5000000
    errorMsg := .text ""
    successMsg := .text ""
    loading := false }

end Withdraw

/-!
# Investment modal (`src/components/InvestmentModal.js`)

The modal is mounted by the dashboard only while it is open with a product
selected, so `open && product` holds in every render. The asynchronous
handler `handleConfirm` is split at its `await`: the part up to the call
`createInvestment(payload)` and the part after the call settled.
-/

namespace InvestmentModal

/-- The values of `PAYMENT_METHODS` (lines 9-12). -/
inductive PaymentMethod where
  | QRIS
  | BANK
  deriving DecidableEq

/-- The fields of the `product` prop read by the modal logic. -/
structure Product where
  id : ℕ
  minimum : ℚ
  maximum : ℚ
  deriving DecidableEq

/-- The state `amount`: the number `product.minimum` it is initialised with,
or the string delivered by the amount field. -/
inductive Amount where
  | number (v : ℚ)
  | text (s : Js.FieldText)
  deriving DecidableEq

/-- Line 16: `useState(product?.minimum || '')`. -/
def initialAmount (p : Product) : Amount :=
  if p.minimum = 0 then .text .empty else .number p.minimum

/-- The numeric value used by `isNaN(amount)` and by the comparisons
`amount < min`, `amount > max`, `amount > 10000000`; `none` is `NaN`. -/
def Amount.toNumber : Amount → Option ℚ
  | .number v => some v
  | .text s => s.toNumber

/-- The test `!amount`. -/
def Amount.falsy : Amount → Bool
  | .number v => decide (v = 0)
  | .text s => !s.truthy

/-- The value of `parseInt(amount)`, `none` for `NaN`. A number is first
written in decimal and then cut at the point (numbers of ordinary size, which
JavaScript prints without exponent). -/
def Amount.parseInt : Amount → Option ℤ
  | .number v => some (if 0 ≤ v then ⌊v⌋ else -⌊-v⌋)
  | .text s => s.parseInt

/-- Line 32: `const isQRISDisabled = amount > 10000000`. -/
def isQRISDisabled (a : Amount) : Bool :=
  match a.toNumber with
  | some v => decide (v > 10000000)
  | none => false

/-- Contents of the state `error`. -/
inductive Msg where
  /-- A literal or server-provided string. -/
  | text (s : String)
  /-- The template of line 64, `Nominal investasi harus antara <min> dan <max>`. -/
  | rangeTemplate (min max : ℚ)
  deriving DecidableEq

/-- The component state, with the order id the router was sent to. -/
structure State where
  amount : Amount
  paymentMethod : PaymentMethod
  bank : String
  loading : Bool
  error : Msg
  redirectedOrder : Option String
  deriving DecidableEq

/-- The argument of `createInvestment` (lines 73-78); `amount` is the value
of `parseInt(amount)`, `none` for `NaN`. -/
structure Payload where
  product_id : ℕ
  amount : Option ℤ
  payment_method : PaymentMethod
  payment_channel : Option String
  deriving DecidableEq

/-- Outcome of `await createInvestment(payload)`: rejection with
`err.message`, or a value with the order id found at `data.data.order_id`
(`none` when any part is missing or falsy). -/
inductive Reply where
  | rejected (message : Option String)
  | fulfilled (orderId : Option String)
  deriving DecidableEq

/-- The condition of line 63:
`!amount || isNaN(amount) || amount < min || amount > max`. -/
def amountRejected (p : Product) (a : Amount) : Bool :=
  a.falsy ||
    (match a.toNumber with
      | none => true
      | some v => decide (v < p.minimum) || decide (v > p.maximum))

/-- Lines 61-79: `handleConfirm` up to the call `createInvestment(payload)`;
the second component is the payload of the call, `none` when no call is made. -/
def handleConfirmStart (p : Product) (s : State) : State × Option Payload :=
  let cleared : State := { s with error := .text "" }
  if amountRejected p s.amount then
    ({ cleared with error := .rangeTemplate p.minimum p.maximum }, none)
  else if s.paymentMethod = .BANK ∧ s.bank = "" then
    ({ cleared with error := .text "Pilih bank transfer." }, none)
  else
    ({ cleared with loading := true },
      some
        { product_id := p.id
          amount := s.amount.parseInt
          payment_method := s.paymentMethod
          payment_channel := if s.paymentMethod = .BANK then some s.bank else none })

/-- Lines 80-89: `handleConfirm` after the call settled. -/
def handleConfirmFinish (s : State) : Reply → State
  | .fulfilled (some orderId) =>
    if orderId = "" then
      { s with loading := false, error := .text "Gagal mendapatkan order ID pembayaran" }
    else { s with loading := false, redirectedOrder := some orderId }
  | .fulfilled none =>
    { s with loading := false, error := .text "Gagal mendapatkan order ID pembayaran" }
  | .rejected message =>
    { s with
      loading := false
      error := .text
        (match message with
          | some m => if m = "" then "Gagal melakukan investasi" else m
          | none => "Gagal melakukan investasi") }

/-- Lines 45-53: `handlePaymentMethodClick(methodValue)`. -/
def handlePaymentMethodClick (s : State) (methodValue : PaymentMethod) : State :=
  if s.loading then s
  else if methodValue = .QRIS ∧ isQRISDisabled s.amount = true then s
  else { s with paymentMethod := methodValue }

/-- Lines 35-43: the body of the default-method effect; `BANKS[0].code` is
`'BRI'`. -/
def defaultMethodEffect (s : State) : State :=
  { s with
    paymentMethod := if isQRISDisabled s.amount then .BANK else .QRIS
    bank := "BRI" }

/-- A render after a state change followed by the effect phase: the effect
runs again when its dependency `isQRISDisabled` changed (the other
dependencies, `open` and `product?.id`, are constant while mounted). -/
def rerender (before after : State) : State :=
  if isQRISDisabled after.amount = isQRISDisabled before.amount then after
  else defaultMethodEffect after

/-- The state after mounting: initial values of `useState` (lines 16-20),
then the first run of the effect. -/
def mounted (p : Product) : State :=
  defaultMethodEffect
    { amount := initialAmount p, paymentMethod := .QRIS, bank := "BRI", loading := false,
      error := .text "", redirectedOrder := none }

/-- What can happen to a mounted modal. The amount field, the method buttons,
the bank selector and the confirm button are disabled while `loading`. -/
inductive Event where
  | changeAmount (value : Js.FieldText)
  | clickMethod (methodValue : PaymentMethod)
  | selectBank (code : String)
  | clickConfirm
  | callSettled (reply : Reply)
  deriving DecidableEq

/-- State after one event. -/
def step (p : Product) (s : State) : Event → State
  | .changeAmount value =>
    if s.loading then s else rerender s { s with amount := .text value }
  | .clickMethod methodValue =>
    if s.loading then s else handlePaymentMethodClick s methodValue
  | .selectBank code => if s.loading then s else { s with bank := code }
  | .clickConfirm => if s.loading then s else (handleConfirmStart p s).1
  | .callSettled reply => if s.loading then handleConfirmFinish s reply else s

/-- State after a sequence of events from mounting. -/
def run (p : Product) (events : List Event) : State := events.foldl (step p) (mounted p)

/-- A product accepting 50000 to 1000000. -/
def starterProduct : Product := { id := 3, minimum := 50000, maximum := 1000000 }

/-- The text `"1e5"`. -/
def text1e5 : Js.FloatText :=
  { negative := false, intPart := some 1, fracNum := 0, fracLen := 0, exponent := 5 }

/-- The mounted modal of `starterProduct` after `"1e5"` was typed. -/
def typed1e5 : State := step starterProduct (mounted starterProduct) (.changeAmount (.float text1e5))

/-- The text `"200000000e-2"`. -/
def textScaled : Js.FloatText :=
  { negative := false, intPart := some 200000000, fracNum := 0, fracLen := 0, exponent := -2 }

/-- A product accepting 50000 to 50000000. -/
def largeProduct : Product := { id := 5, minimum := 50000, maximum := 50000000 }

end InvestmentModal

/-!
# Testimonial upload (`src/pages/forum/upload.js`)

A JavaScript string is a list of UTF-16 code units, each represented by a
`Char`; `length` is the length of the list. The description field is a
`<textarea maxLength={60}>` (lines 230-239), so the values it delivers have at
most 60 code units. `handleSubmit` is split at its `await`.
-/

namespace ForumUpload

/-- The properties of a `File` object read by the page. -/
structure File where
  name : String
  type : String
  size : ℕ
  deriving DecidableEq

/-- The white space and line terminators removed by `String.prototype.trim`. -/
def isTrimChar (c : Char) : Bool :=
  let n := c.toNat
  n = 9 || n = 10 || n = 11 || n = 12 || n = 13 || n = 32 || n = 160 || n = 5760 ||
    (8192 ≤ n && n ≤ 8202) || n = 8232 || n = 8233 || n = 8239 || n = 8287 || n = 12288 ||
    n = 65279

/-- The method `trim()`. -/
def trim (s : List Char) : List Char :=
  ((s.dropWhile isTrimChar).reverse.dropWhile isTrimChar).reverse

/-- The component state used by the two handlers. -/
structure State where
  selectedFile : Option File
  comment : List Char
  isSubmitting : Bool
  uploadProgress : ℕ
  canUpload : Bool
  errorMsg : String
  successMsg : String
  deriving DecidableEq

/-- The state after the `useState` initialisers (lines 12-20). -/
def initialState : State :=
  { selectedFile := none, comment := [], isSubmitting := false, uploadProgress := 0,
    canUpload := false, errorMsg := "", successMsg := "" }

/-- Lines 71-87: `handleFileChange`, `file` being `e.target.files[0]`
(`none` when the list is empty). -/
def handleFileChange (s : State) (file : Option File) : State :=
  match file with
  | none => s
  | some f =>
    if ¬ (f.type = "image/jpeg" ∨ f.type = "image/png") then
      { s with errorMsg := "File harus JPG atau PNG.", selectedFile := none }
    else if f.size > 2 * 1024 * 1024 then
      { s with errorMsg := "Ukuran file maksimal 2MB.", selectedFile := none }
    else { s with errorMsg := "", selectedFile := some f }

/-- The argument of `submitForumTestimonial` (line 117). -/
structure Payload where
  image : File
  description : List Char
  deriving DecidableEq

/-- Outcome of `await submitForumTestimonial(...)`: rejection, or a value
with the truthiness of `res?.success` and `res?.message`. -/
inductive Reply where
  | rejected
  | fulfilled (success : Bool) (message : Option String)
  deriving DecidableEq

/-- The expression `res?.message || fallback`. -/
def orFallback (message : Option String) (fallback : String) : String :=
  match message with
  | some m => if m = "" then fallback else m
  | none => fallback

/-- Lines 89-117: `handleSubmit` up to the call; the second component is the
argument of the call, `none` when no call is made. A selected file is a `File`
object, so the second check (lines 98-101) never fires. -/
def handleSubmitStart (s : State) : State × Option Payload :=
  let cleared : State := { s with errorMsg := "", successMsg := "" }
  match s.selectedFile with
  | none => ({ cleared with errorMsg := "Pilih gambar terlebih dahulu." }, none)
  | some file =>
    if (trim s.comment).length < 5 ∨ (trim s.comment).length > 60 then
      ({ cleared with errorMsg := "Deskripsi minimal 5 dan maksimal 60 karakter." }, none)
    else
      ({ cleared with isSubmitting := true, uploadProgress := 0 },
        some { image := file, description := s.comment })

/-- Lines 118-136: `handleSubmit` after the call settled. -/
def handleSubmitFinish (s : State) : Reply → State
  | .fulfilled true message =>
    { s with
      uploadProgress := 100, isSubmitting := false
      successMsg := orFallback message "Postingan terkirim, menunggu persetujuan."
      errorMsg := "" }
  | .fulfilled false message =>
    { s with
      uploadProgress := 100, isSubmitting := false
      errorMsg := orFallback message "Gagal mengunggah testimoni."
      successMsg := "" }
  | .rejected =>
    { s with isSubmitting := false, errorMsg := "Gagal mengunggah testimoni.", successMsg := "" }

/-- What can happen on the page. The textarea, the file input and the submit
button are disabled while `!canUpload || isSubmitting`. -/
inductive Event where
  | statusChecked (hasWithdrawal : Bool)
  | typeComment (value : List Char)
  | chooseFile (file : Option File)
  | submit
  | callSettled (reply : Reply)
  deriving DecidableEq

/-- State after one event. -/
def step (s : State) : Event → State
  | .statusChecked hasWithdrawal => { s with canUpload := hasWithdrawal }
  | .typeComment value =>
    if !s.canUpload || s.isSubmitting then s else { s with comment := value }
  | .chooseFile file =>
    if !s.canUpload || s.isSubmitting then s else handleFileChange s file
  | .submit => if !s.canUpload || s.isSubmitting then s else (handleSubmitStart s).1
  | .callSettled reply => if s.isSubmitting then handleSubmitFinish s reply else s

/-- State after a sequence of events from the initial state. -/
def run (events : List Event) : State := events.foldl step initialState

end ForumUpload

/-!
# Portfolio tabs (`src/pages/portofolio.js`, lines 63-75)
-/

namespace Portfolio

/-- Line 66: `const preferred = ['Monitor', 'Insight', 'Autopilot']`. -/
def preferred : List String := ["Monitor", "Insight", "Autopilot"]

/-- Lines 67-72: the array `keys` built from `origKeys = Object.keys(data)`. -/
def tabKeysOf (origKeys : List String) : List String :=
  preferred.filter (fun k => origKeys.contains k)
    ++ origKeys.filter (fun k => !preferred.contains k)

/-- The states `tabKeys` and `activeTab`. -/
structure Tabs where
  tabKeys : List String
  activeTab : String
  deriving DecidableEq

/-- The initial values (lines 13 and 17). -/
def initialTabs : Tabs := { tabKeys := [], activeTab := "" }

/-- Lines 73-74: `setTabKeys(keys); if (keys.length > 0) setActiveTab(keys[0])`. -/
def loadTabs (s : Tabs) (origKeys : List String) : Tabs :=
  match tabKeysOf origKeys with
  | [] => { s with tabKeys := [] }
  | first :: rest => { tabKeys := first :: rest, activeTab := first }

end Portfolio

/-!
# Investment history (`src/pages/history/investment.js`)

Times are milliseconds since the epoch, as returned by `getTime()`; the
current time, read by `new Date()` in each function, is an argument.
-/

namespace InvestmentHistory

/-- The object returned by `getStatusConfig`. -/
structure StatusConfig where
  color : String
  bgColor : String
  borderColor : String
  text : String
  icon : String
  deriving DecidableEq

/-- The configuration returned for an expired pending order (lines 149-155),
equal to the entry `'Expired'` of the table. -/
def expiredConfig : StatusConfig :=
  { color := "text-gray-400", bgColor := "bg-gradient-to-r from-gray-500/20 to-slate-500/20",
    borderColor := "border-gray-400/30", text := "Kadaluarsa", icon := "mdi:timer-off" }

/-- The entry `'Pending'` of the table (lines 181-187). -/
def pendingConfig : StatusConfig :=
  { color := "text-yellow-400",
    bgColor := "bg-gradient-to-r from-yellow-500/20 to-amber-500/20",
    borderColor := "border-yellow-400/30", text := "Menunggu", icon := "mdi:clock-outline" }

/-- The entries `'Success'` and `'Completed'` of the table. -/
def successConfig : StatusConfig :=
  { color := "text-green-400",
    bgColor := "bg-gradient-to-r from-green-500/20 to-emerald-500/20",
    borderColor := "border-green-400/30", text := "Berhasil", icon := "mdi:check-circle" }

/-- The entry `'Running'` of the table. -/
def runningConfig : StatusConfig := { successConfig with icon := "mdi:play-circle" }

/-- The entry `'Failed'` of the table. -/
def failedConfig : StatusConfig :=
  { color := "text-red-400", bgColor := "bg-gradient-to-r from-red-500/20 to-rose-500/20",
    borderColor := "border-red-400/30", text := "Gagal", icon := "mdi:close-circle" }

/-- The table `statusConfig` (lines 159-202), own keys only. -/
def statusTable (status : String) : Option StatusConfig :=
  if status = "Success" then some successConfig
  else if status = "Completed" then some successConfig
  else if status = "Running" then some runningConfig
  else if status = "Pending" then some pendingConfig
  else if status = "Failed" then some failedConfig
  else if status = "Expired" then some expiredConfig
  else none

/-- The argument `expired_at`: `none` when it is falsy (missing, null or
empty); otherwise the value of `new Date(expired_at).getTime()`, `none`
standing for `NaN` (an invalid date). -/
abbrev ExpiredAt := Option (Option ℤ)

/-- The value `diff = (expiredDate.getTime() - now.getTime()) / 1000`,
`none` for `NaN`. -/
def diffSeconds (expiredTime : Option ℤ) (now : ℤ) : Option ℚ :=
  expiredTime.map fun t => ((t - now : ℤ) : ℚ) / 1000

/-- Lines 142-205: `getStatusConfig(status, expired_at)` at time `now`. -/
def getStatusConfig (status : String) (expired_at : ExpiredAt) (now : ℤ) : StatusConfig :=
  let expiredBranch : Bool :=
    match expired_at with
    | some expiredTime =>
      decide (status = "Pending") &&
        (match diffSeconds expiredTime now with
          | some diff => decide (diff < 0)
          | none => false)
    | none => false
  if expiredBranch then expiredConfig
  else (statusTable status).getD pendingConfig

/-- Lines 229-237: `shouldShowPayButton(status, expired_at)` at time `now`. -/
def shouldShowPayButton (status : String) (expired_at : ExpiredAt) (now : ℤ) : Bool :=
  match expired_at with
  | some expiredTime =>
    if status = "Pending" then
      match diffSeconds expiredTime now with
      | some diff => decide (diff > 0)
      | none => false
    else false
  | none => false

end InvestmentHistory

/-!
# Admin settings (`src/pages/panel-admin/settings.js`, `handleSubmit`, lines 101-150)

The three numeric settings hold a number (default or server value) or the
string of an `<input type="number">` (lines 371-395).
-/

namespace AdminSettings

/-- The value of a numeric setting. -/
inductive NumberField where
  | number (v : ℚ)
  | empty
  | float (t : Js.FloatText)
  deriving DecidableEq

/-- The value of `Number(field)`. -/
def NumberField.toNumber : NumberField → ℚ
  | .number v => v
  | .empty => 0
  | .float t => t.toNumber

/-- The state `settings`. -/
structure Settings where
  name : String
  company : String
  link_app : String
  link_cs : String
  link_group : String
  logo : String
  maintenance : Bool
  closed_register : Bool
  max_withdraw : NumberField
  min_withdraw : NumberField
  withdraw_charge : NumberField
  deriving DecidableEq

/-- The object `body` of the PUT request (lines 114-126). -/
structure Body where
  name : String
  company : String
  link_app : String
  link_cs : String
  link_group : String
  logo : String
  maintenance : Bool
  closed_register : Bool
  max_withdraw : ℚ
  min_withdraw : ℚ
  withdraw_charge : ℚ
  deriving DecidableEq

/-- The component state used by `handleSubmit`. -/
structure State where
  settings : Settings
  saving : Bool
  error : String
  deriving DecidableEq

/-- Outcome of `await adminRequest('/settings', ...)`: rejection with
`err?.message`, or a value with the truthiness of `res && res.success`,
`res?.message`, and the effect on the settings of spreading `res.data` over
them (`none` when `res.data` is falsy). -/
inductive Reply where
  | rejected (message : Option String)
  | fulfilled (success : Bool) (message : Option String) (merge : Option (Settings → Settings))

/-- The expression `message || 'Gagal menyimpan pengaturan'`. -/
def orFallback (message : Option String) : String :=
  match message with
  | some m => if m = "" then "Gagal menyimpan pengaturan" else m
  | none => "Gagal menyimpan pengaturan"

/-- Lines 127-149: the state after the request was answered. -/
def afterReply (cur : State) : Reply → State
  | .fulfilled true _ (some merge) =>
    { cur with settings := merge cur.settings, saving := false }
  | .fulfilled true _ none => { cur with saving := false }
  | .fulfilled false message _ => { cur with error := orFallback message, saving := false }
  | .rejected message => { cur with error := orFallback message, saving := false }

/-- One run of `handleSubmit`: the state after it and the body of the PUT
request, `none` when no request is sent. -/
def handleSubmit (s : State) (reply : Reply) : State × Option Body :=
  let started : State := { s with saving := true, error := "" }
  if s.settings.min_withdraw.toNumber ≥ s.settings.max_withdraw.toNumber then
    ({ started with
        error := "Minimum penarikan harus lebih kecil dari maksimum penarikan"
        saving := false }, none)
  else
    (afterReply started reply,
      some
        { name := s.settings.name
          company := s.settings.company
          link_app := s.settings.link_app
          link_cs := s.settings.link_cs
          link_group := s.settings.link_group
          logo := s.settings.logo
          maintenance := s.settings.maintenance
          closed_register := s.settings.closed_register
          max_withdraw := s.settings.max_withdraw.toNumber
          min_withdraw := s.settings.min_withdraw.toNumber
          withdraw_charge := s.settings.withdraw_charge.toNumber })

end AdminSettings

namespace SpinWheel

/-! ## Lemmas on the numeric primitives -/

theorem mod360_nonneg (x : ℚ) : 0 ≤ mod360 x := by
  have h := Int.floor_le (x / 360)
  unfold mod360
  have h2 : (⌊x / 360⌋ : ℚ) * 360 ≤ x := by
    have := mul_le_mul_of_nonneg_right h (by norm_num : (0 : ℚ) ≤ 360)
    simpa using this
  linarith

theorem mod360_lt (x : ℚ) : mod360 x < 360 := by
  have h := Int.lt_floor_add_one (x / 360)
  unfold mod360
  have h2 : x < ((⌊x / 360⌋ : ℚ) + 1) * 360 := by
    have := mul_lt_mul_of_pos_right h (by norm_num : (0 : ℚ) < 360)
    simpa using this
  linarith

theorem mod360_add_turns (x : ℚ) (k : ℤ) : mod360 (x + 360 * (k : ℚ)) = mod360 x := by
  unfold mod360
  have h : (x + 360 * (k : ℚ)) / 360 = x / 360 + (k : ℚ) := by ring
  rw [h, Int.floor_add_int]
  push_cast
  ring

theorem mod360_congr {x y : ℚ} (k : ℤ) (h : x = y + 360 * (k : ℚ)) : mod360 x = mod360 y := by
  rw [h, mod360_add_turns]

theorem jsMod_of_nonneg {a : ℚ} (h : 0 ≤ a) : jsMod a 360 = mod360 a := by
  unfold jsMod mod360 truncQ
  rw [if_pos (div_nonneg h (by norm_num))]

theorem baseFull_le (c : ℚ) : baseFull c ≤ c := by
  have h := mod360_nonneg c
  unfold mod360 at h
  unfold baseFull
  linarith

theorem lt_baseFull_add (c : ℚ) : c < baseFull c + 360 := by
  have h := mod360_lt c
  unfold mod360 at h
  unfold baseFull
  linarith

theorem extraSpins_cases {rand : ℚ} (h0 : 0 ≤ rand) (h1 : rand < 1) :
    extraSpins rand = 0 ∨ extraSpins rand = 1 := by
  unfold extraSpins
  have a : 0 ≤ ⌊rand * 2⌋ := Int.floor_nonneg.mpr (by linarith)
  have b : ⌊rand * 2⌋ < 2 := by
    rw [Int.floor_lt]
    push_cast
    linarith
  omega

theorem fullSpins_cases {rand : ℚ} (h0 : 0 ≤ rand) (h1 : rand < 1) :
    fullSpins rand = 1800 ∨ fullSpins rand = 2160 := by
  unfold fullSpins
  rcases extraSpins_cases h0 h1 with h | h <;> rw [h] <;> norm_num

theorem targetCenter_pos {len : ℕ} {i : ℤ} (hi0 : 0 ≤ i) (hlen : 0 < len) :
    0 < targetCenter len i := by
  unfold targetCenter segmentAngle
  have hn : (0 : ℚ) < (len : ℚ) := by exact_mod_cast hlen
  have hi : (0 : ℚ) ≤ (i : ℚ) := by exact_mod_cast hi0
  positivity

theorem targetCenter_lt {len : ℕ} {i : ℤ} (hlen : 0 < len) (hi1 : i < len) :
    targetCenter len i < 360 := by
  unfold targetCenter segmentAngle
  have hi : (i : ℚ) + 1 ≤ (len : ℚ) := by exact_mod_cast hi1
  have hn : (0 : ℚ) < (len : ℚ) := by exact_mod_cast hlen
  rw [← mul_div_assoc, div_lt_iff₀ hn]
  linarith

theorem desiredFinal_eq_mod360 {len : ℕ} {i : ℤ} (hlen : 0 < len) (hi1 : i < len) :
    desiredFinal len i = mod360 (270 - targetCenter len i) := by
  have h := targetCenter_lt hlen hi1
  unfold desiredFinal
  rw [jsMod_of_nonneg (by linarith)]
  exact mod360_congr 1 (by push_cast; ring)

theorem desiredFinal_nonneg {len : ℕ} {i : ℤ} (hlen : 0 < len) (hi1 : i < len) :
    0 ≤ desiredFinal len i := by
  rw [desiredFinal_eq_mod360 hlen hi1]
  exact mod360_nonneg _

theorem calculateRotation_ge {len : ℕ} {rand : ℚ} {i : ℤ} (hlen : 0 < len) (hi1 : i < len)
    (h0 : 0 ≤ rand) (h1 : rand < 1) : 1800 ≤ calculateRotation len rand i := by
  unfold calculateRotation
  rw [if_neg (by omega)]
  have hd := desiredFinal_nonneg hlen hi1
  rcases fullSpins_cases h0 h1 with h | h <;> rw [h] <;> linarith

theorem naiveTarget_gt {len : ℕ} {rand : ℚ} {i : ℤ} (c : ℚ) (hlen : 0 < len) (hi1 : i < len)
    (h0 : 0 ≤ rand) (h1 : rand < 1) : c < naiveTarget len rand i c := by
  have hc := calculateRotation_ge hlen hi1 h0 h1
  have hb := lt_baseFull_add c
  unfold naiveTarget
  linarith

theorem targetRotation_eq_naive {len : ℕ} {rand : ℚ} {i : ℤ} (c : ℚ) (hlen : 0 < len)
    (hi1 : i < len) (h0 : 0 ≤ rand) (h1 : rand < 1) :
    targetRotation len rand i c = naiveTarget len rand i c := by
  unfold targetRotation
  rw [if_neg (not_le.mpr (naiveTarget_gt c hlen hi1 h0 h1))]

theorem calculateRotation_aligned {len : ℕ} {i : ℤ} (rand : ℚ) (hlen : 0 < len)
    (hi1 : i < len) :
    mod360 (270 - calculateRotation len rand i) = mod360 (targetCenter len i) := by
  unfold calculateRotation
  rw [if_neg (by omega), desiredFinal_eq_mod360 hlen hi1]
  refine mod360_congr (⌊(270 - targetCenter len i) / 360⌋ - (5 + extraSpins rand)) ?_
  unfold fullSpins mod360
  push_cast
  ring

theorem targetRotation_sub_baseFull {len : ℕ} {rand : ℚ} {i : ℤ} (c : ℚ) (hlen : 0 < len)
    (hi1 : i < len) (h0 : 0 ≤ rand) (h1 : rand < 1) :
    targetRotation len rand i c - baseFull c = calculateRotation len rand i := by
  rw [targetRotation_eq_naive c hlen hi1 h0 h1]
  unfold naiveTarget
  ring

theorem targetRotation_aligned {len : ℕ} {rand : ℚ} {i : ℤ} (c : ℚ) (hlen : 0 < len)
    (hi1 : i < len) (h0 : 0 ≤ rand) (h1 : rand < 1) :
    mod360 (270 - (targetRotation len rand i c - baseFull c)) = mod360 (targetCenter len i) := by
  rw [targetRotation_sub_baseFull c hlen hi1 h0 h1]
  exact calculateRotation_aligned rand hlen hi1

theorem findIndex_range {α : Type} (pred : α → Bool) (xs : List α) :
    findIndex pred xs = -1 ∨ (0 ≤ findIndex pred xs ∧ findIndex pred xs < xs.length) := by
  unfold findIndex
  split
  · right
    constructor
    · exact Int.natCast_nonneg _
    · exact_mod_cast ‹_›
  · left; rfl

theorem findIndex_of_no_match {α : Type} {pred : α → Bool} {xs : List α}
    (h : ∀ x ∈ xs, pred x = false) : findIndex pred xs = -1 := by
  unfold findIndex
  rw [List.findIdx_eq_length_of_false h, if_neg (lt_irrefl _)]

theorem serverIndex_range {prizes : List Prize} (sp : Option SpinResult) (hne : prizes ≠ []) :
    0 ≤ serverIndex prizes sp ∧ serverIndex prizes sp < prizes.length := by
  have hlen : (0 : ℤ) < prizes.length := by
    have := List.length_pos.mpr hne
    exact_mod_cast this
  unfold serverIndex
  cases sp with
  | none => simpa using hlen
  | some v =>
    rcases findIndex_range (matchesPrize v) prizes with h | h
    · simp only [h]
      simpa using hlen
    · simp only
      split
      · simpa using hlen
      · exact h

theorem serverIndex_of_unmatched {prizes : List Prize} {sp : Option SpinResult}
    (h : ∀ v, sp = some v → ∀ p ∈ prizes, matchesPrize v p = false) :
    serverIndex prizes sp = 0 := by
  unfold serverIndex
  cases sp with
  | none => simp
  | some v => simp [findIndex_of_no_match (h v rfl)]

theorem requestIssued_iff (s : State) :
    requestIssued s = true ↔ 1 ≤ s.userData.spin_ticket ∧ s.prizes ≠ [] := by
  unfold requestIssued
  simp [List.length_eq_zero]

theorem handleSpin_of_not_issued (s : State) (reply : Reply) (rand : ℚ)
    (h : requestIssued s = false) :
    (handleSpin s reply rand).currentRotation = s.currentRotation ∧
      (handleSpin s reply rand).userData = s.userData ∧
      (handleSpin s reply rand).wheel = s.wheel := by
  unfold requestIssued at h
  unfold handleSpin
  by_cases h1 : s.userData.spin_ticket < 1
  · simp [h1]
  · by_cases h2 : s.prizes.length = 0
    · simp [h1, h2]
    · simp [h1, h2] at h

theorem handleSpin_of_failed (s : State) (reply : Reply) (rand : ℚ)
    (h : reply.failed = true) :
    (handleSpin s reply rand).currentRotation = s.currentRotation ∧
      (handleSpin s reply rand).userData = s.userData ∧
      ((handleSpin s reply rand).wheel = s.wheel ∨
        (handleSpin s reply rand).wheel.map (fun w => w.rotate)
          = s.wheel.map (fun _ => s.currentRotation)) := by
  unfold handleSpin
  split
  · simp
  · split
    · simp
    · cases reply with
      | rejected m => simp [catchBlock, Option.map_map, Function.comp_def]
      | fulfilled r =>
        cases r with
        | none => simp [failureBranch, Option.map_map, Function.comp_def]
        | some resp =>
          have hs : resp.success = false := by simpa [Reply.failed] using h
          simp [hs, failureBranch, Option.map_map, Function.comp_def]

theorem handleSpin_of_accepted (s : State) (response : Response) (rand : ℚ)
    (hi : requestIssued s = true) (hs : response.success = true) :
    (handleSpin s (.fulfilled (some response)) rand).currentRotation
      = targetRotation s.prizes.length rand
          (serverIndex s.prizes (serverPrizeOf response)) s.currentRotation := by
  have h := (requestIssued_iff s).mp hi
  have h1 : ¬ s.userData.spin_ticket < 1 := by omega
  have h2 : ¬ s.prizes.length = 0 := by
    simpa [List.length_eq_zero] using h.2
  unfold handleSpin
  simp only [h1, h2, if_false, hs, if_true]
  unfold successBranch
  cases hd : response.data with
  | none => simp [catchBlock]
  | some d =>
    obtain ⟨sr, bi⟩ := d
    cases sr <;> cases bi <;> simp [catchBlock]

theorem step_rotation (s : State) (e : Event) (hv : e.validDraw) :
    s.currentRotation ≤ (step s e).currentRotation ∧
      (accepted s e = true → s.currentRotation < (step s e).currentRotation) ∧
      (accepted s e = false → (step s e).currentRotation = s.currentRotation) := by
  cases e with
  | userLoaded u => simp [step, accepted]
  | prizesLoaded ps => simp [step, accepted]
  | spin reply rand =>
    simp only [step, accepted]
    cases hi : requestIssued s with
    | false =>
      have h := (handleSpin_of_not_issued s reply rand hi).1
      simp [h]
    | true =>
      cases hf : reply.failed with
      | true =>
        have h := (handleSpin_of_failed s reply rand hf).1
        simp [h]
      | false =>
        obtain ⟨response, rfl, hs⟩ : ∃ r, reply = .fulfilled (some r) ∧ r.success = true := by
          cases reply with
          | rejected m => simp [Reply.failed] at hf
          | fulfilled r =>
            cases r with
            | none => simp [Reply.failed] at hf
            | some r => exact ⟨r, rfl, by simpa [Reply.failed] using hf⟩
        have hne := ((requestIssued_iff s).mp hi).2
        have hr := serverIndex_range (serverPrizeOf response) hne
        have hlen : 0 < s.prizes.length := List.length_pos.mpr hne
        have hgt : s.currentRotation < (handleSpin s (.fulfilled (some response)) rand).currentRotation := by
          rw [handleSpin_of_accepted s response rand hi hs,
            targetRotation_eq_naive _ hlen hr.2 hv.1 hv.2]
          exact naiveTarget_gt _ hlen hr.2 hv.1 hv.2
        simp [hgt, le_of_lt hgt]

theorem run_append (s : State) (a b : List Event) : run s (a ++ b) = run (run s a) b := by
  unfold run
  rw [List.foldl_append]

theorem run_rotation_le (events : List Event) :
    ∀ s : State, (∀ e ∈ events, e.validDraw) →
      s.currentRotation ≤ (run s events).currentRotation := by
  induction events with
  | nil => intro s _; exact le_refl _
  | cons e rest ih =>
    intro s hv
    have h1 := (step_rotation s e (hv e (List.mem_cons_self _ _))).1
    have h2 := ih (step s e) (fun x hx => hv x (List.mem_cons_of_mem _ hx))
    exact le_trans h1 h2

/-! ## The rotation contract (claims C1-C5, C10) -/

/-- C1 (forward motion): for every prize count `len ≥ 1`, index `0 ≤ i < len`,
random draw `rand ∈ [0, 1)` (so 5 or 6 full revolutions) and current rotation
`c`, the target rotation computed by `handleSpin` is strictly greater than `c`. -/
theorem forward_motion (len : ℕ) (i : ℤ) (rand c : ℚ) (hlen : 1 ≤ len) (_hi0 : 0 ≤ i)
    (hi1 : i < len) (h0 : 0 ≤ rand) (h1 : rand < 1) :
    c < targetRotation len rand i c := by
  rw [targetRotation_eq_naive c hlen hi1 h0 h1]
  exact naiveTarget_gt c hlen hi1 h0 h1

theorem forward_motion_witness :
    1 ≤ 8 ∧ (0 : ℤ) ≤ 3 ∧ (3 : ℤ) < (8 : ℕ) ∧ (0 : ℚ) ≤ 3 / 4 ∧ (3 / 4 : ℚ) < 1 ∧
      (1000 : ℚ) < targetRotation 8 (3 / 4) 3 1000 :=
  ⟨by decide, by decide, by decide, by norm_num, by norm_num,
    forward_motion 8 3 (3 / 4) 1000 (by decide) (by decide) (by decide) (by norm_num)
      (by norm_num)⟩

/-- C2 (alignment): for `len ≥ 1`, `0 ≤ i < len`, any draw and any current
rotation `c`, with `segmentAngle = 360 / len`, `targetCenter = (i + 0.5) *
segmentAngle` and `baseFull = floor (c / 360) * 360`, the target rotation `T`
satisfies `(270 - (T - baseFull)) mod 360 = targetCenter mod 360` exactly. -/
theorem alignment (len : ℕ) (i : ℤ) (rand c : ℚ) (hlen : 1 ≤ len) (_hi0 : 0 ≤ i)
    (hi1 : i < len) (h0 : 0 ≤ rand) (h1 : rand < 1) :
    mod360 (270 - (targetRotation len rand i c - (⌊c / 360⌋ : ℚ) * 360))
      = mod360 (((i : ℚ) + 1 / 2) * (360 / (len : ℚ))) :=
  targetRotation_aligned c hlen hi1 h0 h1

theorem alignment_witness :
    1 ≤ 6 ∧ (0 : ℤ) ≤ 4 ∧ (4 : ℤ) < (6 : ℕ) ∧ (0 : ℚ) ≤ 1 / 2 ∧ (1 / 2 : ℚ) < 1 ∧
      mod360 (270 - (targetRotation 6 (1 / 2) 4 (-725) - (⌊(-725 : ℚ) / 360⌋ : ℚ) * 360))
        = mod360 ((((4 : ℤ) : ℚ) + 1 / 2) * (360 / ((6 : ℕ) : ℚ))) :=
  ⟨by decide, by decide, by decide, by norm_num, by norm_num,
    alignment 6 4 (1 / 2) (-725) (by decide) (by decide) (by decide) (by norm_num)
      (by norm_num)⟩

/-- C3, as stated, fails: with 8 prizes, the wheel resting at 2047.5 (the
result of a first spin onto index 0) and a next spin onto index 5 with draw 0,
the target is 3622.5, only 1575 degrees ahead, which is less than 1800. -/
theorem min_revolutions_counterexample :
    targetRotation 8 0 5 (4095 / 2) = 7245 / 2 ∧
      ¬ (1800 ≤ targetRotation 8 0 5 (4095 / 2) - 4095 / 2) := by
  norm_num [targetRotation, naiveTarget, baseFull, calculateRotation, fullSpins, extraSpins,
    desiredFinal, targetCenter, segmentAngle, jsMod, truncQ]

/-- C3 (amended): for valid `len`, `i`, draw and current rotation `c`, the
target rotation `T` lies at least 5 full revolutions (1800 degrees) above
`baseFull = floor (c / 360) * 360`, the last whole turn not exceeding `c`,
and therefore more than 4 full revolutions (1440 degrees) above `c` itself. -/
theorem min_revolutions_from_base (len : ℕ) (i : ℤ) (rand c : ℚ) (hlen : 1 ≤ len)
    (_hi0 : 0 ≤ i) (hi1 : i < len) (h0 : 0 ≤ rand) (h1 : rand < 1) :
    1800 ≤ targetRotation len rand i c - baseFull c ∧
      1440 < targetRotation len rand i c - c := by
  have hs := targetRotation_sub_baseFull c hlen hi1 h0 h1
  have hc := calculateRotation_ge hlen hi1 h0 h1
  have hb := lt_baseFull_add c
  constructor <;> linarith

theorem min_revolutions_from_base_witness :
    1 ≤ 8 ∧ (0 : ℤ) ≤ 5 ∧ (5 : ℤ) < (8 : ℕ) ∧ (0 : ℚ) ≤ 0 ∧ (0 : ℚ) < 1 ∧
      (1800 ≤ targetRotation 8 0 5 (4095 / 2) - baseFull (4095 / 2) ∧
        1440 < targetRotation 8 0 5 (4095 / 2) - 4095 / 2) :=
  ⟨by decide, by decide, by decide, by norm_num, by norm_num,
    min_revolutions_from_base 8 5 0 (4095 / 2) (by decide) (by decide) (by decide)
      (by norm_num) (by norm_num)⟩

/-- C10 (concrete scenario A): 8 prizes, index 0, pointer at 270, current
rotation 0, draw 0 (5 revolutions) give `segmentAngle = 45`,
`targetCenter = 22.5`, `desiredFinal = 247.5`, `fullSpins = 1800`,
`calculateRotation = 2047.5`, `baseFull = 0` and target rotation 2047.5, the
`+360` correction not being applied. -/
theorem scenario_A :
    segmentAngle 8 = 45 ∧ targetCenter 8 0 = 45 / 2 ∧ desiredFinal 8 0 = 495 / 2 ∧
      extraSpins 0 = 0 ∧ fullSpins 0 = 1800 ∧ calculateRotation 8 0 0 = 4095 / 2 ∧
      baseFull 0 = 0 ∧ naiveTarget 8 0 0 0 = 4095 / 2 ∧ ¬ (naiveTarget 8 0 0 0 ≤ 0) ∧
      targetRotation 8 0 0 0 = 4095 / 2 := by
  norm_num [targetRotation, naiveTarget, baseFull, calculateRotation, fullSpins, extraSpins,
    desiredFinal, targetCenter, segmentAngle, jsMod, truncQ]

/-- C6 (rollback on request failure): when the spin request rejects, or
resolves to no response or to a response whose `success` is not truthy,
`handleSpin` leaves `currentRotation` at its pre-spin value and leaves
`spin_ticket` and `balance` unchanged; the wheel element is left as it was
or shows the pre-spin rotation, never a tentative target angle. -/
theorem rollback_on_request_failure (s : State) (reply : Reply) (rand : ℚ)
    (h : (∃ m, reply = .rejected m) ∨ reply = .fulfilled none ∨
      ∃ r, reply = .fulfilled (some r) ∧ r.success = false) :
    (handleSpin s reply rand).currentRotation = s.currentRotation ∧
      (handleSpin s reply rand).userData.spin_ticket = s.userData.spin_ticket ∧
      (handleSpin s reply rand).userData.balance = s.userData.balance ∧
      ((handleSpin s reply rand).wheel = s.wheel ∨
        (handleSpin s reply rand).wheel.map (fun w => w.rotate)
          = s.wheel.map (fun _ => s.currentRotation)) := by
  have hf : reply.failed = true := by
    rcases h with ⟨m, rfl⟩ | rfl | ⟨r, rfl, hr⟩ <;> simp [Reply.failed, *]
  obtain ⟨h1, h2, h3⟩ := handleSpin_of_failed s reply rand hf
  exact ⟨h1, by rw [h2], by rw [h2], h3⟩

theorem rollback_on_request_failure_witness :
    ((∃ m, Reply.fulfilled (some refused) = .rejected m) ∨
        Reply.fulfilled (some refused) = .fulfilled none ∨
        ∃ r, Reply.fulfilled (some refused) = .fulfilled (some r) ∧ r.success = false) ∧
      ((handleSpin readyState (.fulfilled (some refused)) (1 / 4)).currentRotation
          = readyState.currentRotation ∧
        (handleSpin readyState (.fulfilled (some refused)) (1 / 4)).userData.spin_ticket
          = readyState.userData.spin_ticket ∧
        (handleSpin readyState (.fulfilled (some refused)) (1 / 4)).userData.balance
          = readyState.userData.balance ∧
        ((handleSpin readyState (.fulfilled (some refused)) (1 / 4)).wheel = readyState.wheel ∨
          (handleSpin readyState (.fulfilled (some refused)) (1 / 4)).wheel.map
              (fun w => w.rotate)
            = readyState.wheel.map (fun _ => readyState.currentRotation))) :=
  ⟨Or.inr (Or.inr ⟨refused, rfl, rfl⟩),
    rollback_on_request_failure readyState (.fulfilled (some refused)) (1 / 4)
      (Or.inr (Or.inr ⟨refused, rfl, rfl⟩))⟩

/-- C7 (fallback to the first segment): for a non-empty prize list, when the
spin result of a successful response is absent or matches no prize (neither
by non-empty equal code nor by equal numeric amount), the index `handleSpin`
passes to `calculateRotation` is 0, the committed rotation is the target for
index 0, and forward motion, alignment and repeated alignment hold for
index 0. -/
theorem fallback_first_segment (s : State) (response : Response) (rand rand2 : ℚ)
    (htick : 1 ≤ s.userData.spin_ticket) (hne : s.prizes ≠ [])
    (hsucc : response.success = true)
    (hun : ∀ v, serverPrizeOf response = some v → ∀ p ∈ s.prizes, matchesPrize v p = false)
    (h0 : 0 ≤ rand) (h1 : rand < 1) (h0b : 0 ≤ rand2) (h1b : rand2 < 1) :
    serverIndex s.prizes (serverPrizeOf response) = 0 ∧
      (handleSpin s (.fulfilled (some response)) rand).currentRotation
        = targetRotation s.prizes.length rand 0 s.currentRotation ∧
      s.currentRotation < targetRotation s.prizes.length rand 0 s.currentRotation ∧
      mod360 (270 - (targetRotation s.prizes.length rand 0 s.currentRotation
          - baseFull s.currentRotation))
        = mod360 (targetCenter s.prizes.length 0) ∧
      targetRotation s.prizes.length rand 0 s.currentRotation
        < targetRotation s.prizes.length rand2 0
            (targetRotation s.prizes.length rand 0 s.currentRotation) ∧
      mod360 (270 - (targetRotation s.prizes.length rand2 0
            (targetRotation s.prizes.length rand 0 s.currentRotation)
          - baseFull (targetRotation s.prizes.length rand 0 s.currentRotation)))
        = mod360 (targetCenter s.prizes.length 0) := by
  have hidx := serverIndex_of_unmatched hun
  have hlen : 0 < s.prizes.length := List.length_pos.mpr hne
  have hi1 : (0 : ℤ) < s.prizes.length := by exact_mod_cast hlen
  have hi := (requestIssued_iff s).mpr ⟨htick, hne⟩
  refine ⟨hidx, ?_, ?_, targetRotation_aligned _ hlen hi1 h0 h1, ?_,
    targetRotation_aligned _ hlen hi1 h0b h1b⟩
  · rw [handleSpin_of_accepted s response rand hi hsucc, hidx]
  · rw [targetRotation_eq_naive _ hlen hi1 h0 h1]
    exact naiveTarget_gt _ hlen hi1 h0 h1
  · rw [targetRotation_eq_naive _ hlen hi1 h0b h1b]
    exact naiveTarget_gt _ hlen hi1 h0b h1b

theorem fallback_first_segment_witness :
    (1 ≤ readyState.userData.spin_ticket ∧ readyState.prizes ≠ [] ∧
        wonUnknown.success = true ∧
        (∀ v, serverPrizeOf wonUnknown = some v →
          ∀ p ∈ readyState.prizes, matchesPrize v p = false) ∧
        (0 : ℚ) ≤ 1 / 4 ∧ (1 / 4 : ℚ) < 1 ∧ (0 : ℚ) ≤ 3 / 4 ∧ (3 / 4 : ℚ) < 1) ∧
      (serverIndex readyState.prizes (serverPrizeOf wonUnknown) = 0 ∧
        (handleSpin readyState (.fulfilled (some wonUnknown)) (1 / 4)).currentRotation
          = targetRotation readyState.prizes.length (1 / 4) 0 readyState.currentRotation ∧
        readyState.currentRotation
          < targetRotation readyState.prizes.length (1 / 4) 0 readyState.currentRotation ∧
        mod360 (270 - (targetRotation readyState.prizes.length (1 / 4) 0
              readyState.currentRotation - baseFull readyState.currentRotation))
          = mod360 (targetCenter readyState.prizes.length 0) ∧
        targetRotation readyState.prizes.length (1 / 4) 0 readyState.currentRotation
          < targetRotation readyState.prizes.length (3 / 4) 0
              (targetRotation readyState.prizes.length (1 / 4) 0 readyState.currentRotation) ∧
        mod360 (270 - (targetRotation readyState.prizes.length (3 / 4) 0
              (targetRotation readyState.prizes.length (1 / 4) 0 readyState.currentRotation)
            - baseFull
              (targetRotation readyState.prizes.length (1 / 4) 0 readyState.currentRotation)))
          = mod360 (targetCenter readyState.prizes.length 0)) := by
  have htick : 1 ≤ readyState.userData.spin_ticket := by decide
  have hne : readyState.prizes ≠ [] := by simp [readyState, sixPrizes]
  have hun : ∀ v, serverPrizeOf wonUnknown = some v →
      ∀ p ∈ readyState.prizes, matchesPrize v p = false := by
    intro v hv p hp
    have hv2 : v = unknownResult := by
      simpa [serverPrizeOf, wonUnknown] using hv.symm
    subst hv2
    simp [readyState, sixPrizes] at hp
    rcases hp with rfl | rfl | rfl | rfl | rfl | rfl <;>
      simp [matchesPrize, unknownResult, truthy]
  exact ⟨⟨htick, hne, rfl, hun, by norm_num, by norm_num, by norm_num, by norm_num⟩,
    fallback_first_segment readyState wonUnknown (1 / 4) (3 / 4) htick hne rfl hun
      (by norm_num) (by norm_num) (by norm_num) (by norm_num)⟩

/-- C8 (monotone accumulator): along every sequence of events starting from
`currentRotation = 0`, the committed rotation is never negative and never
decreases: at each step it strictly increases when the spin is accepted and
is unchanged otherwise (guard refusal, unsuccessful or missing response,
rejected request, or a data-loading event), and it is at most its value at
every later point of the sequence. -/
theorem monotone_accumulator (s0 : State) (before after : List Event) (e : Event)
    (hstart : s0.currentRotation = 0)
    (hv : ∀ x ∈ before ++ e :: after, x.validDraw) :
    0 ≤ (run s0 before).currentRotation ∧
      (run s0 before).currentRotation ≤ (step (run s0 before) e).currentRotation ∧
      (accepted (run s0 before) e = true →
        (run s0 before).currentRotation < (step (run s0 before) e).currentRotation) ∧
      (accepted (run s0 before) e = false →
        (step (run s0 before) e).currentRotation = (run s0 before).currentRotation) ∧
      (run s0 before).currentRotation
        ≤ (run s0 (before ++ e :: after)).currentRotation := by
  have hvb : ∀ x ∈ before, x.validDraw := fun x hx =>
    hv x (List.mem_append_left _ hx)
  have hve : e.validDraw := hv e (List.mem_append_right _ (List.mem_cons_self _ _))
  have hvr : ∀ x ∈ e :: after, x.validDraw := fun x hx =>
    hv x (List.mem_append_right _ hx)
  have hb := run_rotation_le before s0 hvb
  have hs := step_rotation (run s0 before) e hve
  have hr := run_rotation_le (e :: after) (run s0 before) hvr
  rw [hstart] at hb
  rw [run_append]
  exact ⟨hb, hs.1, hs.2.1, hs.2.2, hr⟩

theorem monotone_accumulator_witness :
    (initialState.currentRotation = 0 ∧
        ∀ x ∈ sessionBefore ++ Event.spin (.fulfilled (some refused)) (3 / 4) :: sessionAfter,
          x.validDraw) ∧
      (0 ≤ (run initialState sessionBefore).currentRotation ∧
        (run initialState sessionBefore).currentRotation
          ≤ (step (run initialState sessionBefore)
              (.spin (.fulfilled (some refused)) (3 / 4))).currentRotation ∧
        (accepted (run initialState sessionBefore)
            (.spin (.fulfilled (some refused)) (3 / 4)) = true →
          (run initialState sessionBefore).currentRotation
            < (step (run initialState sessionBefore)
                (.spin (.fulfilled (some refused)) (3 / 4))).currentRotation) ∧
        (accepted (run initialState sessionBefore)
            (.spin (.fulfilled (some refused)) (3 / 4)) = false →
          (step (run initialState sessionBefore)
              (.spin (.fulfilled (some refused)) (3 / 4))).currentRotation
            = (run initialState sessionBefore).currentRotation) ∧
        (run initialState sessionBefore).currentRotation
          ≤ (run initialState
              (sessionBefore ++ Event.spin (.fulfilled (some refused)) (3 / 4)
                :: sessionAfter)).currentRotation) := by
  have hv : ∀ x ∈ sessionBefore ++ Event.spin (.fulfilled (some refused)) (3 / 4)
      :: sessionAfter, x.validDraw := by
    intro x hx
    simp [sessionBefore, sessionAfter] at hx
    rcases hx with rfl | rfl | rfl | rfl | rfl | rfl <;> simp [Event.validDraw] <;> norm_num
  exact ⟨⟨rfl, hv⟩,
    monotone_accumulator initialState sessionBefore sessionAfter
      (.spin (.fulfilled (some refused)) (3 / 4)) rfl hv⟩

/-- C9, as stated, fails: `calculateRotation` completes by returning a number
for an empty prize list (it returns 0) and for indices outside
`[0, prizes.length)` (7 and -1 with four prizes). -/
theorem fail_fast_counterexample :
    calculateRotationCall 0 0 0 = .returned 0 ∧
      calculateRotationCall 4 0 7 = .returned 1755 ∧
      calculateRotationCall 4 0 (-1) = .returned 2115 := by
  norm_num [calculateRotationCall, calculateRotation, fullSpins, extraSpins, desiredFinal,
    targetCenter, segmentAngle, jsMod, truncQ]

/-- C9 (amended): `calculateRotation` raises no error; it returns 0 for an
empty prize list and `fullSpins + desiredFinal` for a non-empty list and any
index. Precondition violations are kept away upstream by `handleSpin`: the
index it computes for a non-empty list always lies in `[0, prizes.length)`,
and with an empty list it stops at a guard, setting an error message and
leaving the rotation unchanged. -/
theorem precondition_handling (len : ℕ) (rand : ℚ) (i : ℤ) (s : State) (reply : Reply)
    (p : Prize) (ps : List Prize) (sp : Option SpinResult) :
    calculateRotationCall 0 rand i = .returned 0 ∧
      calculateRotationCall (len + 1) rand i
        = .returned (fullSpins rand + desiredFinal (len + 1) i) ∧
      (0 ≤ serverIndex (p :: ps) sp ∧ serverIndex (p :: ps) sp < ((p :: ps).length : ℤ)) ∧
      (handleSpin { s with prizes := [] } reply rand).currentRotation = s.currentRotation ∧
      ((handleSpin { s with prizes := [] } reply rand).error
          = some "Tidak memiliki tiket spin yang cukup" ∨
        (handleSpin { s with prizes := [] } reply rand).error
          = some "Data hadiah belum dimuat") := by
  refine ⟨by simp [calculateRotationCall, calculateRotation],
    by simp [calculateRotationCall, calculateRotation],
    serverIndex_range sp (List.cons_ne_nil p ps), ?_, ?_⟩
  · exact (handleSpin_of_not_issued { s with prizes := [] } reply rand
      (by simp [requestIssued])).1
  · unfold handleSpin
    by_cases h : s.userData.spin_ticket < 1 <;> simp [h]

/-! ## Further claims on the wheel (C11, C12, C20) -/

/-- C11 (concrete scenario B): 4 prizes, index 2, pointer at 270, current
rotation 3600, draw 0 give `segmentAngle = 90`, `targetCenter = 225`,
`desiredFinal = 45`, `fullSpins = 1800`, `calculateRotation = 1845`,
`baseFull = 3600` and target rotation 5445; the `+360` correction is not
applied because 5445 exceeds 3600. -/
theorem scenario_B :
    segmentAngle 4 = 90 ∧ targetCenter 4 2 = 225 ∧ desiredFinal 4 2 = 45 ∧
      extraSpins 0 = 0 ∧ fullSpins 0 = 1800 ∧ calculateRotation 4 0 2 = 1845 ∧
      baseFull 3600 = 3600 ∧ naiveTarget 4 0 2 3600 = 5445 ∧
      ¬ (naiveTarget 4 0 2 3600 ≤ 3600) ∧ targetRotation 4 0 2 3600 = 5445 := by
  norm_num [targetRotation, naiveTarget, baseFull, calculateRotation, fullSpins, extraSpins,
    desiredFinal, targetCenter, segmentAngle, jsMod, truncQ]

/-- C12 (spin guard): when `userData.spin_ticket < 1` or the prize list is
empty, `handleSpin` issues no spin request (its result does not depend on any
reply or random draw) and only sets the error message: the ticket message when
tickets are missing, whether or not the list is empty, the empty-list message
otherwise; rotation, `spin_ticket`, `balance` and `result` are unchanged. -/
theorem spin_guard (s : State) (reply reply2 : Reply) (rand rand2 : ℚ)
    (h : s.userData.spin_ticket < 1 ∨ s.prizes = []) :
    requestIssued s = false ∧
      handleSpin s reply rand = handleSpin s reply2 rand2 ∧
      handleSpin s reply rand
        = { s with
            error := some (if s.userData.spin_ticket < 1
              then "Tidak memiliki tiket spin yang cukup" else "Data hadiah belum dimuat") } ∧
      (handleSpin s reply rand).currentRotation = s.currentRotation ∧
      (handleSpin s reply rand).userData.spin_ticket = s.userData.spin_ticket ∧
      (handleSpin s reply rand).userData.balance = s.userData.balance ∧
      (handleSpin s reply rand).result = s.result := by
  have key : ∀ (r : Reply) (x : ℚ), handleSpin s r x
      = { s with
          error := some (if s.userData.spin_ticket < 1
            then "Tidak memiliki tiket spin yang cukup" else "Data hadiah belum dimuat") } := by
    intro r x
    unfold handleSpin
    by_cases h1 : s.userData.spin_ticket < 1
    · simp [h1]
    · have h2 : s.prizes = [] := h.resolve_left h1
      simp [h1, h2]
  refine ⟨?_, by rw [key, key], key reply rand, by rw [key], by rw [key], by rw [key],
    by rw [key]⟩
  unfold requestIssued
  rcases h with h | h
  · simp [h]
  · simp [h]

theorem spin_guard_witness :
    (initialState.userData.spin_ticket < 1 ∨ initialState.prizes = []) ∧
      (requestIssued initialState = false ∧
        handleSpin initialState (.fulfilled (some wonP4)) (1 / 4)
          = handleSpin initialState (.rejected none) (3 / 4) ∧
        handleSpin initialState (.fulfilled (some wonP4)) (1 / 4)
          = { initialState with
              error := some (if initialState.userData.spin_ticket < 1
                then "Tidak memiliki tiket spin yang cukup"
                else "Data hadiah belum dimuat") } ∧
        (handleSpin initialState (.fulfilled (some wonP4)) (1 / 4)).currentRotation
          = initialState.currentRotation ∧
        (handleSpin initialState (.fulfilled (some wonP4)) (1 / 4)).userData.spin_ticket
          = initialState.userData.spin_ticket ∧
        (handleSpin initialState (.fulfilled (some wonP4)) (1 / 4)).userData.balance
          = initialState.userData.balance ∧
        (handleSpin initialState (.fulfilled (some wonP4)) (1 / 4)).result
          = initialState.result) :=
  ⟨Or.inl (by decide),
    spin_guard initialState (.fulfilled (some wonP4)) (.rejected none) (1 / 4) (3 / 4)
      (Or.inl (by decide))⟩

theorem roundDouble_of_binade {x : ℚ} (e : ℤ) (hlo : (2 : ℚ) ^ e ≤ x)
    (hhi : x < (2 : ℚ) ^ (e + 1)) : roundDouble x = roundInBinade e x := by
  have hpos : 0 < x := lt_of_lt_of_le (by positivity) hlo
  have h1 : e ≤ Int.log 2 x :=
    (Int.zpow_le_iff_le_log (by norm_num : 1 < 2) hpos).mp (by exact_mod_cast hlo)
  have h2 : Int.log 2 x < e + 1 :=
    (Int.lt_zpow_iff_log_lt (by norm_num : 1 < 2) hpos).mp (by exact_mod_cast hhi)
  have he : Int.log 2 x = e := by omega
  unfold roundDouble
  rw [if_neg (ne_of_gt hpos), if_pos hpos, he]

theorem processPrizesWith_chancePercent (rnd : ℚ → ℚ) (prizeColors : List String)
    (data : List FetchedPrize) :
    (processPrizesWith rnd prizeColors data).map (fun p => p.chancePercent)
      = (activePrizes data).map
          (chancePercentWith rnd (totalChanceWith rnd (activePrizes data))) := by
  unfold processPrizesWith
  rw [List.map_map]
  have h : ((fun p : ProcessedPrize => p.chancePercent) ∘ fun entry : ℕ × FetchedPrize =>
      ({ fetched := entry.2
         color := prizeColors[entry.1 % prizeColors.length]?
         textColor := "#FFFFFF"
         nameIsRupiah :=
           (match entry.2.amount with
             | some a => decide (1000 ≤ a)
             | none => false)
         chancePercent :=
           chancePercentWith rnd (totalChanceWith rnd (activePrizes data)) entry.2 }
        : ProcessedPrize))
      = (chancePercentWith rnd (totalChanceWith rnd (activePrizes data))) ∘ Prod.snd := rfl
  rw [h, ← List.map_map, List.enum_map_snd]

/-- The double-precision arithmetic of JavaScript reaches the sum 100 of the
percentages only up to rounding: with two active prizes of chances 1 and 2
(total 3) the values of `chancePercent` are 33.33333333333333 and
66.66666666666666, whose sum, exact or rounded as JavaScript adds them, is
99.99999999999999. -/
theorem chancePercent_double_example :
    activePrizes oneTwoPrizes
        = [ { code := some "A", amount := some 500, status := "Active", chance := .number 1 },
            { code := some "B", amount := some 2000, status := "Active",
              chance := .number 2 } ] ∧
      totalChanceWith roundDouble (activePrizes oneTwoPrizes) = 3 ∧
      (processPrizesDouble brandColors oneTwoPrizes).map (fun p => p.chancePercent)
        = [some (2345624805922133 / 70368744177664),
            some (2345624805922133 / 35184372088832)] ∧
      (2345624805922133 / 70368744177664 + 2345624805922133 / 35184372088832 : ℚ) ≠ 100 ∧
      roundDouble (roundDouble (0 + 2345624805922133 / 70368744177664)
          + 2345624805922133 / 35184372088832)
        = 7036874417766399 / 70368744177664 ∧
      (7036874417766399 / 70368744177664 : ℚ) ≠ 100 := by
  have hact : activePrizes oneTwoPrizes
      = [ { code := some "A", amount := some 500, status := "Active", chance := .number 1 },
          { code := some "B", amount := some 2000, status := "Active",
            chance := .number 2 } ] := by
    decide
  have r1 : roundDouble 1 = 1 := by
    rw [roundDouble_of_binade 0 (by norm_num) (by norm_num)]
    norm_num [roundInBinade]
  have r3 : roundDouble 3 = 3 := by
    rw [roundDouble_of_binade 1 (by norm_num) (by norm_num)]
    norm_num [roundInBinade]
  have rthird : roundDouble (1 / 3) = 6004799503160661 / 18014398509481984 := by
    rw [roundDouble_of_binade (-2) (by norm_num) (by norm_num)]
    norm_num [roundInBinade]
  have rtwothirds : roundDouble (2 / 3) = 6004799503160661 / 9007199254740992 := by
    rw [roundDouble_of_binade (-1) (by norm_num) (by norm_num)]
    norm_num [roundInBinade]
  have rp1 : roundDouble (6004799503160661 / 18014398509481984 * 100)
      = 2345624805922133 / 70368744177664 := by
    rw [roundDouble_of_binade 5 (by norm_num) (by norm_num)]
    norm_num [roundInBinade]
  have rp2 : roundDouble (6004799503160661 / 9007199254740992 * 100)
      = 2345624805922133 / 35184372088832 := by
    rw [roundDouble_of_binade 6 (by norm_num) (by norm_num)]
    norm_num [roundInBinade]
  have rs1 : roundDouble (0 + 2345624805922133 / 70368744177664)
      = 2345624805922133 / 70368744177664 := by
    rw [roundDouble_of_binade 5 (by norm_num) (by norm_num)]
    norm_num [roundInBinade]
  have rs2 : roundDouble (2345624805922133 / 70368744177664 + 2345624805922133 / 35184372088832)
      = 7036874417766399 / 70368744177664 := by
    rw [roundDouble_of_binade 6 (by norm_num) (by norm_num)]
    norm_num [roundInBinade]
  have htot : totalChanceWith roundDouble (activePrizes oneTwoPrizes) = 3 := by
    rw [hact]
    simp only [totalChanceWith, List.foldl_cons, List.foldl_nil, numericChance]
    norm_num [r1, r3]
  refine ⟨hact, htot, ?_, by norm_num, ?_, by norm_num⟩
  · unfold processPrizesDouble
    rw [processPrizesWith_chancePercent, htot, hact]
    have h3 : (0 : ℚ) < 3 := by norm_num
    simp only [List.map_cons, List.map_nil, chancePercentWith, chanceOperand, Option.map_some',
      h3, if_true]
    rw [rthird, rtwothirds, rp1, rp2]
  · rw [rs1, rs2]

theorem zeroChance_total : totalChanceWith roundDouble (activePrizes zeroChancePrizes) = 0 := by
  have hact : activePrizes zeroChancePrizes = zeroChancePrizes := by decide
  rw [hact]
  simp [totalChanceWith, zeroChancePrizes, numericChance, roundDouble]

/-- C22 (the `+360` correction is never taken): for `len ≥ 1`, `0 ≤ i < len`,
any draw in `[0, 1)` and any current rotation `c`, negative ones included,
`baseFull + calculateRotation(i)` is already strictly greater than `c`, so the
condition `targetRotation <= currentRotation` of line 160 is false and the
target is `baseFull + calculateRotation(i)`; in `handleSpin` the branch is
unreachable, the index passed being always in range when the request was
issued. -/
theorem correction_never_taken (len : ℕ) (i : ℤ) (rand c : ℚ) (s : State)
    (response : Response) (hlen : 1 ≤ len) (_hi0 : 0 ≤ i) (hi1 : i < len)
    (h0 : 0 ≤ rand) (h1 : rand < 1) :
    c < baseFull c + calculateRotation len rand i ∧
      ¬ (naiveTarget len rand i c ≤ c) ∧
      targetRotation len rand i c = baseFull c + calculateRotation len rand i ∧
      (requestIssued s = true →
        ¬ (naiveTarget s.prizes.length rand (serverIndex s.prizes (serverPrizeOf response))
            s.currentRotation ≤ s.currentRotation)) := by
  have hgt := naiveTarget_gt c hlen hi1 h0 h1
  refine ⟨hgt, not_le.mpr hgt, targetRotation_eq_naive c hlen hi1 h0 h1, ?_⟩
  intro hissued
  have hne := ((requestIssued_iff s).mp hissued).2
  have hr := serverIndex_range (serverPrizeOf response) hne
  exact not_le.mpr (naiveTarget_gt _ (List.length_pos.mpr hne) hr.2 h0 h1)

theorem correction_never_taken_witness :
    (1 ≤ 6 ∧ (0 : ℤ) ≤ 4 ∧ (4 : ℤ) < (6 : ℕ) ∧ (0 : ℚ) ≤ 1 / 2 ∧ (1 / 2 : ℚ) < 1) ∧
      ((-725 : ℚ) < baseFull (-725) + calculateRotation 6 (1 / 2) 4 ∧
        ¬ (naiveTarget 6 (1 / 2) 4 (-725) ≤ -725) ∧
        targetRotation 6 (1 / 2) 4 (-725) = baseFull (-725) + calculateRotation 6 (1 / 2) 4 ∧
        (requestIssued readyState = true →
          ¬ (naiveTarget readyState.prizes.length (1 / 2)
              (serverIndex readyState.prizes (serverPrizeOf wonP4))
              readyState.currentRotation ≤ readyState.currentRotation))) :=
  ⟨⟨by decide, by decide, by decide, by norm_num, by norm_num⟩,
    correction_never_taken 6 4 (1 / 2) (-725) readyState wonP4 (by decide) (by decide)
      (by decide) (by norm_num) (by norm_num)⟩

end SpinWheel

namespace Withdraw

/-! ## Withdrawal form (claim C13) -/

theorem handleWithdraw_no_bank (s : State) (reply : Reply)
    (h : bankTruthy s.selectedBankId = false) :
    handleWithdraw s reply
      = ({ s with errorMsg := .text "Silakan pilih rekening bank terlebih dahulu",
                  successMsg := .text "" }, none) := by
  unfold handleWithdraw
  cases hb : s.selectedBankId with
  | none => simp
  | some id =>
    have : id = 0 := by simpa [bankTruthy, hb] using h
    simp [this]

theorem bankTruthy_iff (b : Option ℕ) : bankTruthy b = true ↔ ∃ id, b = some id ∧ id ≠ 0 := by
  cases b with
  | none => simp [bankTruthy]
  | some id => simp [bankTruthy]

/-- C13 (withdraw validation): `handleWithdraw` calls `withdrawUser` exactly
when a bank account is selected, `minWithdraw ≤ amount ≤ maxWithdraw` and,
when user data is loaded, `amount ≤ balance`; the call carries that amount and
that account. Otherwise nothing is submitted and the error is, in this order
of precedence, the no-bank message, the min/max range message or the
insufficient-balance message. -/
theorem withdraw_validation (s : State) (reply : Reply) :
    ((handleWithdraw s reply).2.isSome = true ↔
        bankTruthy s.selectedBankId = true ∧
          ∃ a, s.withdrawAmount.toNumber = some a ∧ s.minWithdraw ≤ a ∧ a ≤ s.maxWithdraw ∧
            ∀ u, s.userData = some u → a ≤ u.balance) ∧
      (∀ req, (handleWithdraw s reply).2 = some req →
        s.withdrawAmount.toNumber = some req.amount ∧
          s.selectedBankId = some req.bank_account_id) ∧
      (bankTruthy s.selectedBankId = false →
        handleWithdraw s reply
          = ({ s with errorMsg := .text "Silakan pilih rekening bank terlebih dahulu",
                      successMsg := .text "" }, none)) ∧
      (bankTruthy s.selectedBankId = true →
        (∀ a, s.withdrawAmount.toNumber = some a →
          ¬ (s.minWithdraw ≤ a ∧ a ≤ s.maxWithdraw)) →
        handleWithdraw s reply
          = ({ s with errorMsg := .rangeTemplate s.minWithdraw s.maxWithdraw,
                      successMsg := .text "" }, none)) ∧
      (bankTruthy s.selectedBankId = true →
        ∀ a u, s.withdrawAmount.toNumber = some a → s.minWithdraw ≤ a → a ≤ s.maxWithdraw →
          s.userData = some u → u.balance < a →
          handleWithdraw s reply
            = ({ s with errorMsg := .text "Saldo tidak mencukupi untuk penarikan ini",
                        successMsg := .text "" }, none)) := by
  refine ⟨?_, ?_, handleWithdraw_no_bank s reply, ?_, ?_⟩
  · cases hb : bankTruthy s.selectedBankId with
    | false =>
      rw [handleWithdraw_no_bank s reply hb]
      simp
    | true =>
      obtain ⟨id, hid, hne⟩ := (bankTruthy_iff _).mp hb
      unfold handleWithdraw
      simp only [hid, hne, if_false]
      cases hn : s.withdrawAmount.toNumber with
      | none => simp
      | some a =>
        by_cases hr : a < s.minWithdraw ∨ a > s.maxWithdraw
        · simp only [hr, if_true]
          have : ¬ (s.minWithdraw ≤ a ∧ a ≤ s.maxWithdraw) := by
            rintro ⟨h1, h2⟩
            rcases hr with h | h <;> linarith
          simp
          intro h1 h2
          exact absurd ⟨h1, h2⟩ this
        · have hr2 : s.minWithdraw ≤ a ∧ a ≤ s.maxWithdraw := by
            constructor
            · exact not_lt.mp (fun h => hr (Or.inl h))
            · exact not_lt.mp (fun h => hr (Or.inr h))
          simp only [hr, if_false]
          cases hu : s.userData with
          | none => simp [hr2]
          | some u =>
            by_cases hbal : a > u.balance
            · simp [hbal]
            · simp [hbal, hr2, not_lt.mp hbal]
  · intro req hreq
    unfold handleWithdraw at hreq
    cases hb : s.selectedBankId with
    | none => simp [hb] at hreq
    | some id =>
      simp only [hb] at hreq
      by_cases h0 : id = 0
      · simp [h0] at hreq
      · simp only [h0, if_false] at hreq
        cases hn : s.withdrawAmount.toNumber with
        | none => simp [hn] at hreq
        | some a =>
          simp only [hn] at hreq
          split at hreq
          · simp at hreq
          · split at hreq
            · simp at hreq
            · simp at hreq
              subst hreq
              simp
  · intro hb hall
    obtain ⟨id, hid, hne⟩ := (bankTruthy_iff _).mp hb
    unfold handleWithdraw
    simp only [hid, hne, if_false]
    cases hn : s.withdrawAmount.toNumber with
    | none => simp
    | some a =>
      have hr : a < s.minWithdraw ∨ a > s.maxWithdraw := by
        by_contra hcon
        push_neg at hcon
        exact hall a hn ⟨hcon.1, hcon.2⟩
      simp [hr]
  · intro hb a u hn h1 h2 hu hlt
    obtain ⟨id, hid, hne⟩ := (bankTruthy_iff _).mp hb
    unfold handleWithdraw
    have hr : ¬ (a < s.minWithdraw ∨ a > s.maxWithdraw) := by
      rintro (h | h) <;> linarith
    simp [hid, hne, hn, hr, hu, hlt]

theorem filledForm_submits (reply : Reply) :
    (handleWithdraw filledForm reply).2 = some { amount := 120000, bank_account_id := 7 } := by
  have hn : filledForm.withdrawAmount.toNumber = some 120000 := by
    norm_num [filledForm, Js.FieldText.toNumber, Js.FloatText.toNumber, Js.FloatText.magnitude]
  unfold handleWithdraw
  rw [hn]
  norm_num [filledForm]

end Withdraw

namespace InvestmentModal

/-! ## Investment modal (claims C14, C15) -/

theorem handleConfirmStart_range (p : Product) (s : State) :
    (amountRejected p s.amount = true →
        handleConfirmStart p s
          = ({ s with error := .rangeTemplate p.minimum p.maximum }, none)) ∧
      (∀ payload, (handleConfirmStart p s).2 = some payload →
        ∃ v, s.amount.toNumber = some v ∧ p.minimum ≤ v ∧ v ≤ p.maximum) := by
  constructor
  · intro h
    unfold handleConfirmStart
    simp [h]
  · intro payload h
    unfold handleConfirmStart at h
    split at h
    · simp at h
    · rename_i hrej
      unfold amountRejected at hrej
      cases hv : s.amount.toNumber with
      | none => simp [hv] at hrej
      | some v =>
        simp only [hv, Bool.or_eq_true, decide_eq_true_eq, not_or, not_lt] at hrej
        exact ⟨v, rfl, hrej.2.1, hrej.2.2⟩

theorem typed1e5_eq :
    typed1e5 = { mounted starterProduct with amount := .text (.float text1e5) } := by
  have h1 : isQRISDisabled (.text (.float text1e5)) = false := by
    norm_num [isQRISDisabled, Amount.toNumber, Js.FieldText.toNumber, Js.FloatText.toNumber,
      Js.FloatText.magnitude, text1e5]
  have h2 : isQRISDisabled (mounted starterProduct).amount = false := by
    norm_num [isQRISDisabled, Amount.toNumber, mounted, defaultMethodEffect, initialAmount,
      starterProduct]
  unfold typed1e5
  simp only [step]
  have h3 : (mounted starterProduct).loading = false := rfl
  rw [h3]
  simp only [Bool.false_eq_true, if_false]
  unfold rerender
  simp only [h1, h2, if_true]

/-- C14 at the entry `"1e5"`: with a product accepting 50000 to 1000000, the
amount typed as `1e5` compares as 100000 and passes the range check of line
63, and the payload of `createInvestment` carries `parseInt("1e5") = 1`,
which is below the minimum. -/
theorem investment_amount_exponent_entry :
    typed1e5.amount = .text (.float text1e5) ∧
      typed1e5.amount.toNumber = some 100000 ∧
      amountRejected starterProduct typed1e5.amount = false ∧
      (handleConfirmStart starterProduct typed1e5).2
        = some { product_id := 3, amount := some 1, payment_method := .QRIS,
                 payment_channel := none } ∧
      ¬ (starterProduct.minimum ≤ ((1 : ℤ) : ℚ)) := by
  have hn : (Amount.text (.float text1e5)).toNumber = some 100000 := by
    norm_num [Amount.toNumber, Js.FieldText.toNumber, Js.FloatText.toNumber,
      Js.FloatText.magnitude, text1e5]
  have hr : amountRejected starterProduct (.text (.float text1e5)) = false := by
    unfold amountRejected
    rw [hn]
    norm_num [Amount.falsy, Js.FieldText.truthy, starterProduct]
  rw [typed1e5_eq]
  refine ⟨rfl, hn, hr, ?_, by norm_num [starterProduct]⟩
  unfold handleConfirmStart
  simp only [hr]
  have hq : isQRISDisabled (initialAmount starterProduct) = false := by
    norm_num [isQRISDisabled, Amount.toNumber, initialAmount, starterProduct]
  simp only [mounted, defaultMethodEffect, hq]
  simp [Amount.parseInt, Js.FieldText.parseInt, Js.FloatText.parseInt, text1e5, starterProduct]

/-- With the amount typed as `200000000e-2` the modal compares 2000000, keeps
QRIS available, and the payload carries `parseInt` of the text, 200000000,
with method QRIS. -/
theorem scaled_entry_payload :
    isQRISDisabled (.text (.float textScaled)) = false ∧
      (handleConfirmStart largeProduct
          { mounted largeProduct with amount := .text (.float textScaled) }).2
        = some { product_id := 5, amount := some 200000000, payment_method := .QRIS,
                 payment_channel := none } := by
  have hn : (Amount.text (.float textScaled)).toNumber = some 2000000 := by
    norm_num [Amount.toNumber, Js.FieldText.toNumber, Js.FloatText.toNumber,
      Js.FloatText.magnitude, textScaled]
  have hq : isQRISDisabled (.text (.float textScaled)) = false := by
    unfold isQRISDisabled
    rw [hn]
    norm_num
  have hr : amountRejected largeProduct (.text (.float textScaled)) = false := by
    unfold amountRejected
    rw [hn]
    norm_num [Amount.falsy, Js.FieldText.truthy, largeProduct]
  refine ⟨hq, ?_⟩
  unfold handleConfirmStart
  simp only [hr]
  have hq0 : isQRISDisabled (initialAmount largeProduct) = false := by
    norm_num [isQRISDisabled, Amount.toNumber, initialAmount, largeProduct]
  simp only [mounted, defaultMethodEffect, hq0]
  simp [Amount.parseInt, Js.FieldText.parseInt, Js.FloatText.parseInt, textScaled, largeProduct]

end InvestmentModal

namespace ForumUpload

/-! ## Testimonial upload (claim C16) -/

end ForumUpload

namespace Portfolio

/-! ## Portfolio tabs (claim C17) -/

theorem preferred_nodup : preferred.Nodup := by decide

/-- C17 (portfolio tab order): for the distinct keys `origKeys` of the
active-investments object, the tab list is a permutation of `origKeys`; it is
a block of preferred keys, exactly those present, in the fixed order Monitor,
Insight, Autopilot, followed by exactly the remaining keys in their original
relative order; `loadTabs` stores that list and, when it is non-empty, makes
its first element the active tab. -/
theorem tab_order (origKeys : List String) (s : Tabs) (hnodup : origKeys.Nodup) :
    (tabKeysOf origKeys).Perm origKeys ∧
      (∃ pre rest, tabKeysOf origKeys = pre ++ rest ∧
        pre.Sublist ["Monitor", "Insight", "Autopilot"] ∧
        (∀ k, k ∈ pre ↔ k ∈ ["Monitor", "Insight", "Autopilot"] ∧ k ∈ origKeys) ∧
        rest.Sublist origKeys ∧
        (∀ k, k ∈ rest ↔ k ∈ origKeys ∧ k ∉ ["Monitor", "Insight", "Autopilot"])) ∧
      (loadTabs s origKeys).tabKeys = tabKeysOf origKeys ∧
      (∀ first rest, tabKeysOf origKeys = first :: rest →
        (loadTabs s origKeys).activeTab = first) := by
  have hpre : ∀ k, k ∈ preferred.filter (fun k => origKeys.contains k)
      ↔ k ∈ preferred ∧ k ∈ origKeys := by
    intro k
    simp [List.mem_filter]
  have hrest : ∀ k, k ∈ origKeys.filter (fun k => !preferred.contains k)
      ↔ k ∈ origKeys ∧ k ∉ preferred := by
    intro k
    simp [List.mem_filter]
  refine ⟨?_, ⟨_, _, rfl, List.filter_sublist _, hpre, List.filter_sublist _, hrest⟩, ?_, ?_⟩
  · have h1 : (preferred.filter (fun k => origKeys.contains k)).Perm
        (origKeys.filter (fun k => preferred.contains k)) := by
      rw [List.perm_ext_iff_of_nodup (preferred_nodup.filter _) (hnodup.filter _)]
      intro k
      rw [hpre k]
      simp [List.mem_filter, and_comm]
    have h2 := List.filter_append_perm (fun k => preferred.contains k) origKeys
    unfold tabKeysOf
    exact (List.Perm.append_right _ h1).trans h2
  · unfold loadTabs
    cases h : tabKeysOf origKeys <;> simp
  · intro first rest h
    unfold loadTabs
    simp [h]

theorem tab_order_witness :
    ["Autopilot", "Bintang 1", "Monitor", "Lainnya"].Nodup ∧
      ((tabKeysOf ["Autopilot", "Bintang 1", "Monitor", "Lainnya"]).Perm
          ["Autopilot", "Bintang 1", "Monitor", "Lainnya"] ∧
        (∃ pre rest, tabKeysOf ["Autopilot", "Bintang 1", "Monitor", "Lainnya"] = pre ++ rest ∧
          pre.Sublist ["Monitor", "Insight", "Autopilot"] ∧
          (∀ k, k ∈ pre ↔ k ∈ ["Monitor", "Insight", "Autopilot"] ∧
            k ∈ ["Autopilot", "Bintang 1", "Monitor", "Lainnya"]) ∧
          rest.Sublist ["Autopilot", "Bintang 1", "Monitor", "Lainnya"] ∧
          (∀ k, k ∈ rest ↔ k ∈ ["Autopilot", "Bintang 1", "Monitor", "Lainnya"] ∧
            k ∉ ["Monitor", "Insight", "Autopilot"])) ∧
        (loadTabs initialTabs ["Autopilot", "Bintang 1", "Monitor", "Lainnya"]).tabKeys
          = tabKeysOf ["Autopilot", "Bintang 1", "Monitor", "Lainnya"] ∧
        (∀ first rest, tabKeysOf ["Autopilot", "Bintang 1", "Monitor", "Lainnya"]
            = first :: rest →
          (loadTabs initialTabs ["Autopilot", "Bintang 1", "Monitor", "Lainnya"]).activeTab
            = first)) :=
  ⟨by decide, tab_order ["Autopilot", "Bintang 1", "Monitor", "Lainnya"] initialTabs (by decide)⟩

end Portfolio

namespace InvestmentHistory

/-! ## Pending-order expiry (claim C18) -/

/-- C18 (pending-order expiry): `shouldShowPayButton` is true exactly when the
status is `Pending`, an expiry time is present and strictly later than now;
`getStatusConfig` returns the `Kadaluarsa` configuration for a `Pending` order
whose expiry is strictly before now; and whenever the pay button is shown the
configuration for the same inputs is the `Menunggu` one, not `Kadaluarsa`. -/
theorem pending_expiry (status : String) (expired_at : ExpiredAt) (now t : ℤ) :
    (shouldShowPayButton status expired_at now = true ↔
        status = "Pending" ∧ ∃ u, expired_at = some (some u) ∧ now < u) ∧
      (t < now → getStatusConfig "Pending" (some (some t)) now = expiredConfig) ∧
      expiredConfig.text = "Kadaluarsa" ∧
      (shouldShowPayButton status expired_at now = true →
        getStatusConfig status expired_at now = pendingConfig) ∧
      pendingConfig.text = "Menunggu" ∧ pendingConfig.text ≠ "Kadaluarsa" := by
  have hdiv : ∀ u : ℤ, (0 : ℚ) < ((u - now : ℤ) : ℚ) / 1000 ↔ now < u := by
    intro u
    rw [div_pos_iff_of_pos_right (by norm_num : (0 : ℚ) < 1000)]
    constructor
    · intro h
      have : (0 : ℤ) < u - now := by exact_mod_cast h
      omega
    · intro h
      have : (0 : ℤ) < u - now := by omega
      exact_mod_cast this
  have hneg : ∀ u : ℤ, ((u - now : ℤ) : ℚ) / 1000 < 0 ↔ u < now := by
    intro u
    rw [div_neg_iff]
    constructor
    · rintro (⟨_, h⟩ | ⟨h, _⟩)
      · norm_num at h
      · have : u - now < 0 := by exact_mod_cast h
        omega
    · intro h
      right
      refine ⟨?_, by norm_num⟩
      have : u - now < 0 := by omega
      exact_mod_cast this
  have hshow : shouldShowPayButton status expired_at now = true ↔
      status = "Pending" ∧ ∃ u, expired_at = some (some u) ∧ now < u := by
    unfold shouldShowPayButton
    cases expired_at with
    | none => simp
    | some et =>
      cases et with
      | none => by_cases hs : status = "Pending" <;> simp [hs, diffSeconds]
      | some u =>
        by_cases hs : status = "Pending"
        · simp only [hs, if_true, diffSeconds, Option.map_some', decide_eq_true_eq, gt_iff_lt,
            hdiv u]
          simp
        · simp [hs]
  refine ⟨hshow, ?_, rfl, ?_, rfl, by decide⟩
  · intro ht
    have hlt := (hneg t).mpr ht
    push_cast at hlt
    unfold getStatusConfig
    simp [diffSeconds, hlt]
  · intro h
    obtain ⟨hs, u, hu, hlt⟩ := hshow.mp h
    subst hs hu
    unfold getStatusConfig
    have hge : ¬ (((u - now : ℤ) : ℚ) / 1000 < 0) := by
      rw [hneg u]
      omega
    push_cast at hge
    simp [diffSeconds, hge, statusTable]

theorem pending_examples :
    shouldShowPayButton "Pending" (some (some 2000)) 1000 = true ∧
      getStatusConfig "Pending" (some (some 2000)) 1000 = pendingConfig ∧
      shouldShowPayButton "Pending" (some (some 500)) 1000 = false ∧
      getStatusConfig "Pending" (some (some 500)) 1000 = expiredConfig ∧
      shouldShowPayButton "Pending" (some none) 1000 = false ∧
      getStatusConfig "Pending" none 1000 = pendingConfig ∧
      getStatusConfig "Failed" (some (some 500)) 1000 = failedConfig := by
  simp +decide [shouldShowPayButton, getStatusConfig, diffSeconds, statusTable]
  norm_num

end InvestmentHistory

namespace AdminSettings

/-! ## Admin withdrawal limits (claim C19) -/

/-- C19 (admin withdrawal limits): `handleSubmit` sends the PUT request exactly
when `Number(min_withdraw) < Number(max_withdraw)`, with these two numbers in
the body; when the minimum is not below the maximum it sends nothing, sets the
error `Minimum penarikan harus lebih kecil dari maksimum penarikan` and leaves
the settings unchanged. -/
theorem admin_withdraw_limits (s : State) (reply : Reply) :
    ((handleSubmit s reply).2.isSome = true ↔
        s.settings.min_withdraw.toNumber < s.settings.max_withdraw.toNumber) ∧
      (∀ body, (handleSubmit s reply).2 = some body →
        body.min_withdraw = s.settings.min_withdraw.toNumber ∧
          body.max_withdraw = s.settings.max_withdraw.toNumber ∧
          body.min_withdraw < body.max_withdraw) ∧
      (s.settings.max_withdraw.toNumber ≤ s.settings.min_withdraw.toNumber →
        handleSubmit s reply
          = ({ s with
                error := "Minimum penarikan harus lebih kecil dari maksimum penarikan"
                saving := false }, none)) := by
  refine ⟨?_, ?_, ?_⟩
  · unfold handleSubmit
    by_cases h : s.settings.min_withdraw.toNumber ≥ s.settings.max_withdraw.toNumber
    · simp only [h, if_true]
      simp
      exact h
    · simp only [h, if_false]
      simp
      exact not_le.mp h
  · intro body hb
    unfold handleSubmit at hb
    by_cases h : s.settings.min_withdraw.toNumber ≥ s.settings.max_withdraw.toNumber
    · simp [h] at hb
    · simp only [h, if_false, Prod.snd, Option.some.injEq] at hb
      subst hb
      exact ⟨rfl, rfl, not_le.mp h⟩
  · intro h
    unfold handleSubmit
    simp [ge_iff_le, h]

end AdminSettings
